import Mathlib

/-!
# The easyrdma example programs as reactive state machines

`examples/send.cpp` and `examples/recv.cpp` are straight-line drivers of the
easyrdma C API.  Each `main` is embedded as a deterministic machine whose
control points are the library calls the program blocks in.  The library (not
part of the sources) is the environment: every blocking call consumes one
`Resp`, the status the call returned together with whatever it stored through
its out-pointers.  A run is `main` applied to a finite list of responses; it
yields the trace of calls and console lines produced so far and the final
program state (`exited code`, or a control point when the responses ran out
and the program is still waiting inside a call).

Left out of the embedding: the address/port strings and the direction constant
(passed through to the library, never inspected), and the floating point
figures of the bandwidth line (the line is recorded with the byte counter it
is computed from).
-/

namespace EasyRdma

/-! ## Data model -/

/-- Constants of `easyrdma.h` named by the programs.  The header is not among
the sources, so its values are parameters of the embedding. -/
structure Header where
  easyrdma_InvalidSession : Nat
  easyrdma_Error_Disconnected : Int
  easyrdma_Error_Timeout : Int
deriving DecidableEq, Repr

/-- The struct `easyrdma_InternalBufferRegion`: `buffer` is the address, `bytes`
the contents of the memory block it designates (kept next to the pointer). -/
structure easyrdma_InternalBufferRegion where
  buffer : Nat
  bufferSize : Nat
  usedSize : Nat
  bytes : List Nat
deriving DecidableEq, Repr

/-- The zero-initialised struct of `easyrdma_InternalBufferRegion bufferRegion = {}`. -/
def easyrdma_InternalBufferRegion.zero : easyrdma_InternalBufferRegion :=
  ⟨0, 0, 0, []⟩

/-- What the environment supplies when a blocking call returns: the `int32_t`
status, the handle stored through a session out-pointer (`none`: nothing was
stored), the contents of `bufferRegion` after the call, and the reading
`durationMs` of the steady clock taken after a completed receive. -/
structure Resp where
  status : Int
  session : Option Nat
  region : easyrdma_InternalBufferRegion
  durationMs : Int
deriving DecidableEq, Repr

/-- Lines written to `std::cout`, with the integers they print. -/
inductive Output where
  | usage
  | errorCreatingSession (status : Int)
  | errorConnecting (status : Int)
  | errorConfiguringBuffers (status : Int)
  | errorAcquiringSendRegion (status : Int)
  | sendBufferTooSmall (bufferSize size : Nat)
  | errorQueueing (status : Int)
  | waitingForConnection
  | errorAcceptingConnection (status : Int)
  | accepted
  | disconnected
  | errorAcquiringReceivedRegion (status : Int)
  | errorReleasingReceivedRegion (status : Int)
  | bandwidth (bytes : Nat)
  | received (total : Nat)
deriving DecidableEq, Repr

/-- Observable actions of a program: console lines, library calls (arguments,
returned status, stored outputs), `memcpy` and `sleep_for`. -/
inductive Event where
  | cout (o : Output)
  | easyrdma_CreateListenerSession (status : Int) (session : Option Nat)
  | easyrdma_CreateConnectorSession (status : Int) (session : Option Nat)
  | easyrdma_Accept (session : Nat) (timeoutMs : Int) (status : Int) (connected : Option Nat)
  | easyrdma_Connect (session : Nat) (timeoutMs : Int) (status : Int)
  | easyrdma_ConfigureBuffers (session : Nat) (blockSizeBytes numBuffers : Nat) (status : Int)
  | easyrdma_AcquireSendRegion (session : Nat) (timeoutMs : Int) (status : Int)
      (region : easyrdma_InternalBufferRegion)
  | easyrdma_QueueBufferRegion (session : Nat) (region : easyrdma_InternalBufferRegion)
      (status : Int)
  | easyrdma_AcquireReceivedRegion (session : Nat) (timeoutMs : Int) (status : Int)
      (region : easyrdma_InternalBufferRegion)
  | easyrdma_ReleaseReceivedBufferRegion (session : Nat)
      (region : easyrdma_InternalBufferRegion) (status : Int)
  | easyrdma_CloseSession (session : Nat)
  | memcpy (dst : Nat) (n : Nat)
  | sleep_for (ms : Nat)
deriving DecidableEq, Repr

/-- A `std::vector<uint8_t>` as the programs use it: `size()` and the bytes
behind `data()`. -/
structure ByteVector where
  size : Nat
  data : List Nat
deriving Repr

/-- The constructor `std::vector<uint8_t>(n, value)`: `n` copies of `value`. -/
def ByteVector.fill (n value : Nat) : ByteVector := ⟨n, List.replicate n value⟩

/-- The effect of `memcpy(dst, src, n)` on the destination block. -/
def memcpy (dst src : List Nat) (n : Nat) : List Nat :=
  src.take n ++ dst.drop n

/-- Wrap-around of `uint64_t` arithmetic. -/
def u64 (n : Nat) : Nat := n % 2 ^ 64

/-- Runs a machine over the responses of the environment, one response per
blocking call, collecting the events of every step. -/
def exec {σ : Type} (step : σ → Resp → List Event × σ) : σ → List Resp → List Event × σ
  | s, [] => ([], s)
  | s, r :: rs =>
    let a := step s r
    let b := exec step a.2 rs
    (a.1 ++ b.1, b.2)

/-- The status a library call returned (`none` for actions without one;
`easyrdma_CloseSession` has one, but both programs discard it). -/
def Event.status? : Event → Option Int
  | Event.easyrdma_CreateListenerSession st _ => some st
  | Event.easyrdma_CreateConnectorSession st _ => some st
  | Event.easyrdma_Accept _ _ st _ => some st
  | Event.easyrdma_Connect _ _ st => some st
  | Event.easyrdma_ConfigureBuffers _ _ _ st => some st
  | Event.easyrdma_AcquireSendRegion _ _ st _ => some st
  | Event.easyrdma_QueueBufferRegion _ _ st => some st
  | Event.easyrdma_AcquireReceivedRegion _ _ st _ => some st
  | Event.easyrdma_ReleaseReceivedBufferRegion _ _ st => some st
  | _ => none

/-! ## send.cpp -/

namespace Send

/-- The `int32_t timeoutMs = 5000` of line 29. -/
def timeoutMs : Int := 5000

/-- The `uint32_t blockSizeBytes = 1024*1024` of line 30. -/
def blockSizeBytes : Nat := (1024 * 1024) % 2 ^ 32

/-- The `uint32_t numBuffers = 50` of line 31. -/
def numBuffers : Nat := 50

/-- The `std::vector<uint8_t> sendData(blockSizeBytes, 0xaa)` of line 58. -/
def sendData : ByteVector := ByteVector.fill blockSizeBytes 0xaa

/-- The blocking call the sender is about to make, or its exit code. -/
inductive Pc where
  | CreateConnectorSession
  | Connect
  | ConfigureBuffers
  | AcquireSendRegion
  | QueueBufferRegion
  | exited (code : Int)
deriving DecidableEq, Repr

/-- The local variables of `main` that outlive a statement. -/
structure State where
  pc : Pc
  session : Nat
  curSendSizeBytes : Nat
  bufferRegion : easyrdma_InternalBufferRegion
deriving DecidableEq, Repr

/-- Lines 88-102: the code after the send loop. -/
def afterLoop (s : State) : List Event × State :=
  ([Event.cout (Output.bandwidth s.curSendSizeBytes), Event.sleep_for 500,
    Event.easyrdma_CloseSession s.session],
   { s with pc := Pc.exited 0 })

/-- Line 60: the head of `while(true)`. -/
def loopHead (s : State) : List Event × State :=
  if true then ([], { s with pc := Pc.AcquireSendRegion }) else afterLoop s

/-- One blocking call of the sender returning `r`, followed by the code up to
the next blocking call. -/
def step (s : State) (r : Resp) : List Event × State :=
  match s.pc with
  | Pc.CreateConnectorSession =>
    -- lines 35-39
    let s1 := { s with session := r.session.getD s.session }
    if r.status ≠ 0 then
      ([Event.easyrdma_CreateConnectorSession r.status r.session,
        Event.cout (Output.errorCreatingSession r.status)],
       { s1 with pc := Pc.exited (-1) })
    else
      ([Event.easyrdma_CreateConnectorSession r.status r.session],
       { s1 with pc := Pc.Connect })
  | Pc.Connect =>
    -- lines 42-46
    if r.status ≠ 0 then
      ([Event.easyrdma_Connect s.session timeoutMs r.status,
        Event.cout (Output.errorConnecting r.status)],
       { s with pc := Pc.exited (-1) })
    else
      ([Event.easyrdma_Connect s.session timeoutMs r.status],
       { s with pc := Pc.ConfigureBuffers })
  | Pc.ConfigureBuffers =>
    -- lines 49-59
    if r.status ≠ 0 then
      ([Event.easyrdma_ConfigureBuffers s.session blockSizeBytes numBuffers r.status,
        Event.cout (Output.errorConfiguringBuffers r.status),
        Event.easyrdma_CloseSession s.session],
       { s with pc := Pc.exited (-1) })
    else
      let h := loopHead { s with curSendSizeBytes := 0 }
      (Event.easyrdma_ConfigureBuffers s.session blockSizeBytes numBuffers r.status :: h.1, h.2)
  | Pc.AcquireSendRegion =>
    -- lines 62-77
    let s1 := { s with bufferRegion := r.region }
    if r.status ≠ 0 then
      ([Event.easyrdma_AcquireSendRegion s.session timeoutMs r.status r.region,
        Event.cout (Output.errorAcquiringSendRegion r.status),
        Event.easyrdma_CloseSession s.session],
       { s1 with pc := Pc.exited (-1) })
    else if r.region.bufferSize < sendData.size then
      ([Event.easyrdma_AcquireSendRegion s.session timeoutMs r.status r.region,
        Event.cout (Output.sendBufferTooSmall r.region.bufferSize sendData.size),
        Event.easyrdma_CloseSession s.session],
       { s1 with pc := Pc.exited (-1) })
    else
      ([Event.easyrdma_AcquireSendRegion s.session timeoutMs r.status r.region,
        Event.memcpy r.region.buffer sendData.size],
       { s1 with
         bufferRegion :=
           { r.region with
             bytes := memcpy r.region.bytes sendData.data sendData.size
             usedSize := sendData.size }
         pc := Pc.QueueBufferRegion })
  | Pc.QueueBufferRegion =>
    -- lines 80-87
    if r.status ≠ 0 then
      ([Event.easyrdma_QueueBufferRegion s.session s.bufferRegion r.status,
        Event.cout (Output.errorQueueing r.status),
        Event.easyrdma_CloseSession s.session],
       { s with pc := Pc.exited (-1) })
    else
      let h := loopHead
        { s with curSendSizeBytes := u64 (s.curSendSizeBytes + s.bufferRegion.usedSize) }
      (Event.easyrdma_QueueBufferRegion s.session s.bufferRegion r.status :: h.1, h.2)
  | Pc.exited _ => ([], s)

/-- Lines 16-34: argument check and initialisation, up to the first call. -/
def start (hdr : Header) (argc : Int) : List Event × State :=
  let s : State :=
    { pc := Pc.CreateConnectorSession
      session := hdr.easyrdma_InvalidSession
      curSendSizeBytes := 0
      bufferRegion := easyrdma_InternalBufferRegion.zero }
  if argc < 4 then ([Event.cout Output.usage], { s with pc := Pc.exited (-1) })
  else ([], s)

/-- The sender `main` run against the responses `env`. -/
def main (hdr : Header) (argc : Int) (env : List Resp) : List Event × State :=
  let a := start hdr argc
  let b := exec step a.2 env
  (a.1 ++ b.1, b.2)

/-- The value `main` returned, if it has returned. -/
def exitCode (s : State) : Option Int :=
  match s.pc with
  | Pc.exited c => some c
  | _ => none

end Send

/-! ## recv.cpp -/

namespace Recv

/-- The `int32_t timeoutMs = -1` of line 36. -/
def timeoutMs : Int := -1

/-- The `uint32_t blockSizeBytes = 2*1024*1024` of line 37. -/
def blockSizeBytes : Nat := (2 * 1024 * 1024) % 2 ^ 32

/-- The `uint32_t numBuffers = 10` of line 38. -/
def numBuffers : Nat := 10

/-- The blocking call the receiver is about to make, or its exit code. -/
inductive Pc where
  | CreateListenerSession
  | Accept
  | ConfigureBuffers
  | AcquireReceivedRegion
  | ReleaseReceivedBufferRegion
  | exited (code : Int)
deriving DecidableEq, Repr

/-- The local variables of `main` that outlive a statement. -/
structure State where
  pc : Pc
  listenSession : Nat
  connectedSession : Nat
  status : Int
  totalReceivedBytes : Nat
  numReceivedBytes : Nat
  bufferRegion : easyrdma_InternalBufferRegion
deriving DecidableEq, Repr

/-- Lines 122-128: the handler that catches every `throw easyrdma_Error`. -/
def catchHandler (hdr : Header) (s : State) : List Event × State :=
  ((if s.listenSession ≠ hdr.easyrdma_InvalidSession then
      [Event.easyrdma_CloseSession s.listenSession] else []) ++
   (if s.connectedSession ≠ hdr.easyrdma_InvalidSession then
      [Event.easyrdma_CloseSession s.connectedSession] else []),
   { s with pc := Pc.exited (-1) })

/-- Lines 116-120: the code after the accept loop. -/
def afterAcceptLoop (hdr : Header) (s : State) : List Event × State :=
  ([Event.easyrdma_CloseSession s.listenSession],
   { s with listenSession := hdr.easyrdma_InvalidSession, pc := Pc.exited 0 })

/-- Lines 47-49: the head of the accept loop `while (true)`. -/
def acceptLoopHead (hdr : Header) (s : State) : List Event × State :=
  if true then ([Event.cout Output.waitingForConnection], { s with pc := Pc.Accept })
  else afterAcceptLoop hdr s

/-- Lines 108-114: the code after the receive loop, then the next iteration of
the accept loop. -/
def afterReceiveLoop (hdr : Header) (s : State) : List Event × State :=
  let h := acceptLoopHead hdr { s with connectedSession := hdr.easyrdma_InvalidSession }
  ([Event.cout (Output.received s.totalReceivedBytes),
    Event.easyrdma_CloseSession s.connectedSession] ++ h.1, h.2)

/-- Line 70: the head of the receive loop `while (!status)`. -/
def receiveLoopHead (hdr : Header) (s : State) : List Event × State :=
  if s.status = 0 then ([], { s with pc := Pc.AcquireReceivedRegion })
  else afterReceiveLoop hdr s

/-- One blocking call of the receiver returning `r`, followed by the code up
to the next blocking call. -/
def step (hdr : Header) (s : State) (r : Resp) : List Event × State :=
  match s.pc with
  | Pc.CreateListenerSession =>
    -- lines 41-45
    let s1 := { s with status := r.status, listenSession := r.session.getD s.listenSession }
    if r.status ≠ 0 then
      let h := catchHandler hdr s1
      ([Event.easyrdma_CreateListenerSession r.status r.session,
        Event.cout (Output.errorCreatingSession r.status)] ++ h.1, h.2)
    else
      let h := acceptLoopHead hdr s1
      (Event.easyrdma_CreateListenerSession r.status r.session :: h.1, h.2)
  | Pc.Accept =>
    -- lines 50-55
    let s1 := { s with status := r.status,
                       connectedSession := r.session.getD s.connectedSession }
    if r.status ≠ 0 then
      let h := catchHandler hdr s1
      ([Event.easyrdma_Accept s.listenSession timeoutMs r.status r.session,
        Event.cout (Output.errorAcceptingConnection r.status)] ++ h.1, h.2)
    else
      ([Event.easyrdma_Accept s.listenSession timeoutMs r.status r.session,
        Event.cout Output.accepted],
       { s1 with pc := Pc.ConfigureBuffers })
  | Pc.ConfigureBuffers =>
    -- lines 58-70
    let s1 := { s with status := r.status }
    if r.status = hdr.easyrdma_Error_Disconnected then
      let h := receiveLoopHead hdr { s1 with totalReceivedBytes := 0, numReceivedBytes := 0 }
      ([Event.easyrdma_ConfigureBuffers s.connectedSession blockSizeBytes numBuffers r.status,
        Event.cout Output.disconnected] ++ h.1, h.2)
    else if r.status ≠ 0 then
      let h := catchHandler hdr s1
      ([Event.easyrdma_ConfigureBuffers s.connectedSession blockSizeBytes numBuffers r.status,
        Event.cout (Output.errorConfiguringBuffers r.status)] ++ h.1, h.2)
    else
      let h := receiveLoopHead hdr { s1 with totalReceivedBytes := 0, numReceivedBytes := 0 }
      (Event.easyrdma_ConfigureBuffers s.connectedSession blockSizeBytes numBuffers r.status
        :: h.1, h.2)
  | Pc.AcquireReceivedRegion =>
    -- lines 72-84
    let s1 := { s with status := r.status, bufferRegion := r.region }
    if r.status = hdr.easyrdma_Error_Disconnected then
      let h := afterReceiveLoop hdr s1
      ([Event.easyrdma_AcquireReceivedRegion s.connectedSession timeoutMs r.status r.region,
        Event.cout Output.disconnected] ++ h.1, h.2)
    else if r.status ≠ 0 then
      let h := catchHandler hdr s1
      ([Event.easyrdma_AcquireReceivedRegion s.connectedSession timeoutMs r.status r.region,
        Event.cout (Output.errorAcquiringReceivedRegion r.status)] ++ h.1, h.2)
    else
      ([Event.easyrdma_AcquireReceivedRegion s.connectedSession timeoutMs r.status r.region],
       { s1 with
         numReceivedBytes := u64 (s.numReceivedBytes + r.region.usedSize)
         totalReceivedBytes := u64 (s.totalReceivedBytes + r.region.usedSize)
         pc := Pc.ReleaseReceivedBufferRegion })
  | Pc.ReleaseReceivedBufferRegion =>
    -- lines 87-106
    let s1 := { s with status := r.status }
    if r.status = hdr.easyrdma_Error_Disconnected then
      let h := afterReceiveLoop hdr s1
      ([Event.easyrdma_ReleaseReceivedBufferRegion s.connectedSession s.bufferRegion r.status,
        Event.cout Output.disconnected] ++ h.1, h.2)
    else if r.status ≠ 0 then
      let h := catchHandler hdr s1
      ([Event.easyrdma_ReleaseReceivedBufferRegion s.connectedSession s.bufferRegion r.status,
        Event.cout (Output.errorReleasingReceivedRegion r.status)] ++ h.1, h.2)
    else if r.durationMs ≥ 1000 then
      let h := receiveLoopHead hdr { s1 with numReceivedBytes := 0 }
      ([Event.easyrdma_ReleaseReceivedBufferRegion s.connectedSession s.bufferRegion r.status,
        Event.cout (Output.bandwidth s.numReceivedBytes)] ++ h.1, h.2)
    else
      let h := receiveLoopHead hdr s1
      (Event.easyrdma_ReleaseReceivedBufferRegion s.connectedSession s.bufferRegion r.status
        :: h.1, h.2)
  | Pc.exited _ => ([], s)

/-- Lines 21-38: initialisation and argument check, up to the first call. -/
def start (hdr : Header) (argc : Int) : List Event × State :=
  let s : State :=
    { pc := Pc.CreateListenerSession
      listenSession := hdr.easyrdma_InvalidSession
      connectedSession := hdr.easyrdma_InvalidSession
      status := 0
      totalReceivedBytes := 0
      numReceivedBytes := 0
      bufferRegion := easyrdma_InternalBufferRegion.zero }
  if argc < 3 then ([Event.cout Output.usage], { s with pc := Pc.exited (-1) })
  else ([], s)

/-- The receiver `main` run against the responses `env`. -/
def main (hdr : Header) (argc : Int) (env : List Resp) : List Event × State :=
  let a := start hdr argc
  let b := exec (step hdr) a.2 env
  (a.1 ++ b.1, b.2)

/-- The value `main` returned, if it has returned. -/
def exitCode (s : State) : Option Int :=
  match s.pc with
  | Pc.exited c => some c
  | _ => none

end Recv

/-! ## Trace properties -/

/-- Runs a trace monitor `m` from state `q` over a trace: the state reached, or
`none` as soon as the monitor rejects an event. -/
def observe {μ : Type} (m : μ → Event → Option μ) : μ → List Event → Option μ
  | q, [] => some q
  | q, e :: es => (m q e).bind (fun q1 => observe m q1 es)

/-- Monitor for "no write goes past `bufferSize`".  The state is the region
returned by the immediately preceding successful `easyrdma_AcquireSendRegion`
(if any).  A `memcpy` is accepted only when it writes to the buffer of that
region and its byte count is at most the region's `bufferSize`; a queued
region is accepted only when `usedSize ≤ bufferSize`. -/
def copyWithinRegion :
    Option easyrdma_InternalBufferRegion → Event → Option (Option easyrdma_InternalBufferRegion)
  | _, Event.easyrdma_AcquireSendRegion _ _ st r => some (if st = 0 then some r else none)
  | some r, Event.memcpy dst n => if dst = r.buffer ∧ n ≤ r.bufferSize then some none else none
  | none, Event.memcpy _ _ => none
  | _, Event.easyrdma_QueueBufferRegion _ r _ =>
    if r.usedSize ≤ r.bufferSize then some none else none
  | _, _ => some none

/-- The payload of the end-to-end scenario: `usedSize` is 1048576 and each of
the first 1048576 bytes is `0xAA`. -/
def scenarioPayload (r : easyrdma_InternalBufferRegion) : Prop :=
  r.usedSize = 1048576 ∧ ∀ i, i < 1048576 → r.bytes[i]? = some 0xAA

/-- The scenario parameters as a property of one event of the sender. -/
def Send.scenarioEvent : Event → Prop
  | Event.easyrdma_Connect _ t _ => t = 5000
  | Event.easyrdma_ConfigureBuffers _ b n _ => b = 1048576 ∧ n = 50
  | Event.easyrdma_QueueBufferRegion _ r _ => scenarioPayload r
  | _ => True

/-- The scenario parameters as a property of one event of the receiver. -/
def Recv.scenarioEvent : Event → Prop
  | Event.easyrdma_ConfigureBuffers _ b n _ => b = 2097152 ∧ n = 10
  | _ => True

/-- Monitor for the receive-region discipline.  The state is the region the
program holds: `none`, or `some (session, region)` from a successful
`easyrdma_AcquireReceivedRegion` until its release.  Rejected are: a release
while nothing is held (after a failed acquire, or a second release), a release
of another session or region than the one held, a further acquire while a
region is held, and closing the session while its region is held. -/
def releaseDiscipline : Option (Nat × easyrdma_InternalBufferRegion) → Event →
    Option (Option (Nat × easyrdma_InternalBufferRegion))
  | none, Event.easyrdma_AcquireReceivedRegion s _ st r =>
    some (if st = 0 then some (s, r) else none)
  | some _, Event.easyrdma_AcquireReceivedRegion _ _ _ _ => none
  | some (s, r), Event.easyrdma_ReleaseReceivedBufferRegion s1 r1 _ =>
    if s1 = s ∧ r1 = r then some none else none
  | none, Event.easyrdma_ReleaseReceivedBufferRegion _ _ _ => none
  | some (s, r), Event.easyrdma_CloseSession s1 => if s1 = s then none else some (some (s, r))
  | q, _ => some q

/-- Monitor for the "Received ... bytes" line.  The state lists, for the
session accepted last, the `(session, usedSize)` of every region returned by a
successful `easyrdma_AcquireReceivedRegion` since that accept, and records
whether the total has just been printed.  A successful `easyrdma_Accept`
restarts the list.  The printed total must be the sum of the listed sizes
modulo `2^64`, and the `easyrdma_CloseSession` that follows the line must
close the session all listed regions were acquired on. -/
def receivedTotal : List (Nat × Nat) × Bool → Event → Option (List (Nat × Nat) × Bool)
  | (acc, p), Event.easyrdma_Accept _ _ st _ => some (if st = 0 then ([], false) else (acc, p))
  | (acc, p), Event.easyrdma_AcquireReceivedRegion s _ st r =>
    some (if st = 0 then (acc ++ [(s, r.usedSize)], p) else (acc, p))
  | (acc, _), Event.cout (Output.received t) =>
    if t = (acc.map Prod.snd).sum % 2 ^ 64 then some (acc, true) else none
  | (acc, true), Event.easyrdma_CloseSession c =>
    if ∀ x ∈ acc, x.1 = c then some ([], false) else none
  | q, _ => some q

/-- What a well-behaved library does with a session out-pointer, given the
handles issued so far: a successful call stores a handle that is not
`easyrdma_InvalidSession` and was never issued before (the new list is
returned); a failing call stores nothing, or `easyrdma_InvalidSession`.
Anything else is `none`. -/
def sessionOut (hdr : Header) (issued : List Nat) (st : Int) (out : Option Nat) :
    Option (List Nat) :=
  match out with
  | some h =>
    if st = 0 then
      if h ≠ hdr.easyrdma_InvalidSession ∧ h ∉ issued then some (issued ++ [h]) else none
    else if h = hdr.easyrdma_InvalidSession then some issued else none
  | none => if st = 0 then none else some issued

/-- Monitor for the assumption on the library: it accepts a trace when every
`easyrdma_CreateListenerSession`, `easyrdma_CreateConnectorSession` and
`easyrdma_Accept` in it behaves as `sessionOut`; its state is the list of the
handles issued, in order. -/
def libraryOK (hdr : Header) : List Nat → Event → Option (List Nat)
  | issued, Event.easyrdma_CreateListenerSession st out => sessionOut hdr issued st out
  | issued, Event.easyrdma_CreateConnectorSession st out => sessionOut hdr issued st out
  | issued, Event.easyrdma_Accept _ _ st out => sessionOut hdr issued st out
  | issued, _ => some issued

/-- The part of the library's behaviour the session state machine depends on,
given the handle values stored so far: a call may store a handle value that was
never stored before (the new list is returned); a successful call must store
one; a failing call may also store nothing, or `easyrdma_InvalidSession`.
Anything else is `none`. -/
def storedOut (hdr : Header) (stored : List Nat) (st : Int) (out : Option Nat) :
    Option (List Nat) :=
  match out with
  | some h =>
    if h ∉ stored then some (stored ++ [h])
    else if st ≠ 0 ∧ h = hdr.easyrdma_InvalidSession then some stored
    else none
  | none => if st = 0 then none else some stored

/-- Monitor for "handle values identify sessions": it accepts a trace when
every `easyrdma_CreateListenerSession`, `easyrdma_CreateConnectorSession` and
`easyrdma_Accept` in it behaves as `storedOut`; its state is the list of the
handle values stored, in order. -/
def handlesFresh (hdr : Header) : List Nat → Event → Option (List Nat)
  | stored, Event.easyrdma_CreateListenerSession st out => storedOut hdr stored st out
  | stored, Event.easyrdma_CreateConnectorSession st out => storedOut hdr stored st out
  | stored, Event.easyrdma_Accept _ _ st out => storedOut hdr stored st out
  | stored, _ => some stored

/-- The two assumptions on a session out-pointer taken alone: a failing call
leaves the handle unchanged (stores nothing), and a handle stored by a
successful call differs from `easyrdma_InvalidSession`. -/
def leavesOrValid (hdr : Header) (st : Int) (out : Option Nat) : Bool :=
  if st = 0 then decide (out ≠ some hdr.easyrdma_InvalidSession) else decide (out = none)

/-- The same two assumptions as a property of one event. -/
def Event.leavesOrValid (hdr : Header) : Event → Bool
  | Event.easyrdma_CreateListenerSession st out => EasyRdma.leavesOrValid hdr st out
  | Event.easyrdma_CreateConnectorSession st out => EasyRdma.leavesOrValid hdr st out
  | Event.easyrdma_Accept _ _ st out => EasyRdma.leavesOrValid hdr st out
  | _ => true

/-- The handles `easyrdma_CloseSession` was called on, in order, one entry per
call. -/
def closedHandles : List Event → List Nat
  | [] => []
  | Event.easyrdma_CloseSession h :: es => h :: closedHandles es
  | _ :: es => closedHandles es

/-- Where a session handle stands in the session state machine, as far as the
calls made on it tell. -/
inductive Phase where
  | fresh
  | connected
  | configured
  | configureFailed
  | closed
deriving DecidableEq, Repr

/-- Monitor for the session state machine, one phase per handle.  A handle
becomes `connected` when `easyrdma_Connect` on it, or an `easyrdma_Accept`
storing it, returns 0.  `easyrdma_ConfigureBuffers` is accepted only on a
`connected` handle and moves it on (so a second configure is rejected);
acquiring a region is accepted only on a handle whose configure returned 0;
every call on a `closed` handle is rejected, `easyrdma_CloseSession`
included. -/
def sessionProtocol : (Nat → Phase) → Event → Option (Nat → Phase)
  | φ, Event.easyrdma_Connect s _ st =>
    if φ s = Phase.closed then none
    else some (if st = 0 ∧ φ s = Phase.fresh then Function.update φ s Phase.connected else φ)
  | φ, Event.easyrdma_Accept l _ st out =>
    if φ l = Phase.closed then none
    else
      match out with
      | some h =>
        some (if st = 0 ∧ φ h = Phase.fresh then Function.update φ h Phase.connected else φ)
      | none => some φ
  | φ, Event.easyrdma_ConfigureBuffers s _ _ st =>
    if φ s = Phase.connected then
      some (Function.update φ s (if st = 0 then Phase.configured else Phase.configureFailed))
    else none
  | φ, Event.easyrdma_AcquireSendRegion s _ _ _ =>
    if φ s = Phase.configured then some φ else none
  | φ, Event.easyrdma_AcquireReceivedRegion s _ _ _ =>
    if φ s = Phase.configured then some φ else none
  | φ, Event.easyrdma_QueueBufferRegion s _ _ =>
    if φ s = Phase.closed then none else some φ
  | φ, Event.easyrdma_ReleaseReceivedBufferRegion s _ _ =>
    if φ s = Phase.closed then none else some φ
  | φ, Event.easyrdma_CloseSession s =>
    if φ s = Phase.closed then none else some (Function.update φ s Phase.closed)
  | φ, _ => some φ

/-! ## Relations between program states and monitor states -/

/-- The relation kept between the receiver and the monitor `receivedTotal`:
nothing is pending after the total was printed, the list is empty right after
an accept, and inside the receive loop `totalReceivedBytes` is the sum of the
listed sizes modulo `2^64`, all of them acquired on `connectedSession`. -/
def Recv.totalRel (s : Recv.State) (q : List (Nat × Nat) × Bool) : Prop :=
  q.2 = false ∧
    (s.pc = Recv.Pc.ConfigureBuffers → q.1 = []) ∧
    (s.pc = Recv.Pc.AcquireReceivedRegion ∨ s.pc = Recv.Pc.ReleaseReceivedBufferRegion →
      s.totalReceivedBytes = (q.1.map Prod.snd).sum % 2 ^ 64 ∧
        ∀ x ∈ q.1, x.1 = s.connectedSession)

/-- The relation kept between the receiver, the handles issued so far (`a`) and
the handles closed so far (`cl`): before a session exists both lists are
empty; while waiting for a connection everything issued but the listener has
been closed; while a connection is served the listener and the connected
handle are the ones still open; once `main` has returned the closed handles
are a rearrangement of the issued ones. -/
def Recv.ledgerRel (hdr : Header) (s : Recv.State) (a cl : List Nat) : Prop :=
  a.Nodup ∧ hdr.easyrdma_InvalidSession ∉ a ∧
    match s.pc with
    | Recv.Pc.CreateListenerSession =>
      a = [] ∧ cl = [] ∧ s.listenSession = hdr.easyrdma_InvalidSession ∧
        s.connectedSession = hdr.easyrdma_InvalidSession
    | Recv.Pc.Accept =>
      a = s.listenSession :: cl ∧ s.connectedSession = hdr.easyrdma_InvalidSession
    | Recv.Pc.exited _ => cl.Perm a
    | _ => a = s.listenSession :: (cl ++ [s.connectedSession])

/-- The relation kept between the sender and the monitor `sessionProtocol`: the
phase of the one handle the sender works on. -/
def Send.protocolRel (s : Send.State) (φ : Nat → Phase) : Prop :=
  match s.pc with
  | Send.Pc.CreateConnectorSession => ∀ h, φ h = Phase.fresh
  | Send.Pc.Connect => φ s.session = Phase.fresh
  | Send.Pc.ConfigureBuffers => φ s.session = Phase.connected
  | Send.Pc.AcquireSendRegion => φ s.session = Phase.configured
  | Send.Pc.QueueBufferRegion => φ s.session = Phase.configured
  | Send.Pc.exited _ => True

/-- The relation kept between the receiver, the handles issued so far and the
monitor `sessionProtocol`: handles not issued yet are `fresh`, the listener is
never configured or closed while the program runs, and the connected handle
has the phase its last call gave it. -/
def Recv.protocolRel (hdr : Header) (s : Recv.State) (a : List Nat) (φ : Nat → Phase) : Prop :=
  (∀ h, h ∉ a → φ h = Phase.fresh) ∧
    match s.pc with
    | Recv.Pc.CreateListenerSession =>
      a = [] ∧ s.connectedSession = hdr.easyrdma_InvalidSession ∧
        s.listenSession = hdr.easyrdma_InvalidSession
    | Recv.Pc.Accept =>
      s.listenSession ∈ a ∧ φ s.listenSession = Phase.fresh ∧
        s.connectedSession = hdr.easyrdma_InvalidSession
    | Recv.Pc.ConfigureBuffers =>
      s.listenSession ∈ a ∧ φ s.listenSession = Phase.fresh ∧ s.connectedSession ∈ a ∧
        s.listenSession ≠ s.connectedSession ∧ φ s.connectedSession = Phase.connected
    | Recv.Pc.exited _ => True
    | _ =>
      s.listenSession ∈ a ∧ φ s.listenSession = Phase.fresh ∧ s.connectedSession ∈ a ∧
        s.listenSession ≠ s.connectedSession ∧ φ s.connectedSession = Phase.configured

/-! ## Concrete inputs -/

/-- A header instance for concrete runs (placeholder values: the programs use
only that the error codes are non-zero). -/
def hdr0 : Header := ⟨0, -1, -2⟩

/-- A response carrying only a status. -/
def ok (status : Int) : Resp := ⟨status, none, easyrdma_InternalBufferRegion.zero, 0⟩

/-- A response carrying a status and a stored session handle. -/
def okSession (status : Int) (h : Nat) : Resp :=
  ⟨status, some h, easyrdma_InternalBufferRegion.zero, 0⟩

/-- A response carrying a status and a region with the given sizes. -/
def okRegion (status : Int) (bufferSize usedSize : Nat) : Resp :=
  ⟨status, none, ⟨4096, bufferSize, usedSize, []⟩, 0⟩

/-! ## Runs: general facts -/

theorem exec_append {σ : Type} (step : σ → Resp → List Event × σ) (xs ys : List Resp) :
    ∀ s : σ, exec step s (xs ++ ys) =
      ((exec step s xs).1 ++ (exec step (exec step s xs).2 ys).1,
       (exec step (exec step s xs).2 ys).2) := by
  induction xs with
  | nil => intro s; simp [exec]
  | cons r rs ih => intro s; simp [exec, ih, List.append_assoc]

/-- An invariant of a state together with the trace produced so far is kept by
a whole run as soon as every step keeps it. -/
theorem exec_trace_inv {σ : Type} (step : σ → Resp → List Event × σ)
    (I : σ → List Event → Prop)
    (hstep : ∀ s r T, I s T → I (step s r).2 (T ++ (step s r).1)) :
    ∀ (env : List Resp) (s : σ) (T : List Event), I s T →
      I (exec step s env).2 (T ++ (exec step s env).1) := by
  intro env
  induction env with
  | nil => intro s T h; simpa [exec] using h
  | cons r rs ih =>
    intro s T h
    have h1 := ih (step s r).2 (T ++ (step s r).1) (hstep s r T h)
    simpa [exec, List.append_assoc] using h1

theorem send_step_exited (s : Send.State) (c : Int) (h : s.pc = Send.Pc.exited c) (r : Resp) :
    Send.step s r = ([], s) := by
  simp [Send.step, h]

theorem send_exec_exited (s : Send.State) (c : Int) (h : s.pc = Send.Pc.exited c) :
    ∀ env : List Resp, exec Send.step s env = ([], s) := by
  intro env
  induction env with
  | nil => rfl
  | cons r rs ih => simp [exec, send_step_exited s c h, ih]

theorem recv_step_exited (hdr : Header) (s : Recv.State) (c : Int)
    (h : s.pc = Recv.Pc.exited c) (r : Resp) : Recv.step hdr s r = ([], s) := by
  simp [Recv.step, h]

theorem recv_exec_exited (hdr : Header) (s : Recv.State) (c : Int)
    (h : s.pc = Recv.Pc.exited c) :
    ∀ env : List Resp, exec (Recv.step hdr) s env = ([], s) := by
  intro env
  induction env with
  | nil => rfl
  | cons r rs ih => simp [exec, recv_step_exited hdr s c h, ih]

@[simp]
theorem send_exec_exited_mk (c : Int) (h n : Nat) (b : easyrdma_InternalBufferRegion)
    (env : List Resp) :
    exec Send.step ⟨Send.Pc.exited c, h, n, b⟩ env = ([], ⟨Send.Pc.exited c, h, n, b⟩) :=
  send_exec_exited _ c rfl env

@[simp]
theorem recv_exec_exited_mk (hdr : Header) (c : Int) (l k : Nat) (st : Int) (t n : Nat)
    (b : easyrdma_InternalBufferRegion) (env : List Resp) :
    exec (Recv.step hdr) ⟨Recv.Pc.exited c, l, k, st, t, n, b⟩ env =
      ([], ⟨Recv.Pc.exited c, l, k, st, t, n, b⟩) :=
  recv_exec_exited hdr _ c rfl env

theorem send_main_append (hdr : Header) (argc : Int) (xs ys : List Resp) :
    Send.main hdr argc (xs ++ ys) =
      ((Send.main hdr argc xs).1 ++ (exec Send.step (Send.main hdr argc xs).2 ys).1,
       (exec Send.step (Send.main hdr argc xs).2 ys).2) := by
  simp [Send.main, exec_append, List.append_assoc]

theorem recv_main_append (hdr : Header) (argc : Int) (xs ys : List Resp) :
    Recv.main hdr argc (xs ++ ys) =
      ((Recv.main hdr argc xs).1 ++ (exec (Recv.step hdr) (Recv.main hdr argc xs).2 ys).1,
       (exec (Recv.step hdr) (Recv.main hdr argc xs).2 ys).2) := by
  simp [Recv.main, exec_append, List.append_assoc]

theorem send_sendData_length : Send.sendData.size = 1048576 := rfl

theorem send_sendData_data_length : Send.sendData.data.length = 1048576 := by
  unfold Send.sendData ByteVector.fill
  rw [List.length_replicate]
  rfl

theorem observe_append {μ : Type} (m : μ → Event → Option μ) (xs ys : List Event) :
    ∀ q : μ, observe m q (xs ++ ys) = (observe m q xs).bind (fun q1 => observe m q1 ys) := by
  induction xs with
  | nil => intro q; simp [observe]
  | cons e es ih =>
    intro q
    cases h : m q e with
    | none => simp [observe, h]
    | some q1 => simp [observe, h, ih]

/-- Simulation: if every step of the machine, started in a state related to the
monitor state `q` and producing events the assumption monitor `asm` accepts,
is accepted by the monitor `m` and re-establishes the relation, then so is every
run. -/
theorem exec_observe_under {σ α μ : Type} (step : σ → Resp → List Event × σ)
    (asm : α → Event → Option α) (m : μ → Event → Option μ) (a0 : α) (q0 : μ)
    (R : σ → α → μ → Prop)
    (hstep : ∀ s r a q, R s a q → ∀ a1, observe asm a (step s r).1 = some a1 →
      ∃ q1, observe m q (step s r).1 = some q1 ∧ R (step s r).2 a1 q1)
    (env : List Resp) (s : σ) (T : List Event)
    (h0 : ∀ a, observe asm a0 T = some a → ∃ q, observe m q0 T = some q ∧ R s a q) :
    ∀ a, observe asm a0 (T ++ (exec step s env).1) = some a →
      ∃ q, observe m q0 (T ++ (exec step s env).1) = some q ∧ R (exec step s env).2 a q := by
  refine exec_trace_inv step
    (fun s T => ∀ a, observe asm a0 T = some a → ∃ q, observe m q0 T = some q ∧ R s a q)
    ?_ env s T h0
  intro s r T hI a1 ha1
  rw [observe_append] at ha1
  cases ha : observe asm a0 T with
  | none => simp [ha] at ha1
  | some a =>
    rw [ha] at ha1
    obtain ⟨q, hq, hR⟩ := hI a ha
    obtain ⟨q1, hq1, hR1⟩ := hstep s r a q hR a1 (by simpa using ha1)
    exact ⟨q1, by rw [observe_append, hq]; simpa using hq1, hR1⟩

/-- Simulation without an assumption on the environment. -/
theorem exec_observe {σ μ : Type} (step : σ → Resp → List Event × σ)
    (m : μ → Event → Option μ) (q0 : μ) (R : σ → μ → Prop)
    (hstep : ∀ s r q, R s q → ∃ q1, observe m q (step s r).1 = some q1 ∧ R (step s r).2 q1)
    (env : List Resp) (s : σ) (T : List Event)
    (h0 : ∃ q, observe m q0 T = some q ∧ R s q) :
    ∃ q, observe m q0 (T ++ (exec step s env).1) = some q ∧ R (exec step s env).2 q := by
  refine exec_trace_inv step (fun s T => ∃ q, observe m q0 T = some q ∧ R s q) ?_ env s T h0
  intro s r T hI
  obtain ⟨q, hq, hR⟩ := hI
  obtain ⟨q1, hq1, hR1⟩ := hstep s r q hR
  exact ⟨q1, by rw [observe_append, hq]; simpa using hq1, hR1⟩

theorem memcpy_sendData_getElem (dst : List Nat) (i : Nat) (h : i < 1048576) :
    (memcpy dst Send.sendData.data 1048576)[i]? = some 0xAA := by
  have hl : Send.sendData.data.length = 1048576 := send_sendData_data_length
  unfold memcpy
  rw [List.getElem?_append_left (by rw [List.length_take, hl]; simpa using h)]
  rw [List.getElem?_take_of_lt h]
  unfold Send.sendData ByteVector.fill
  rw [List.getElem?_replicate]
  have : i < Send.blockSizeBytes := by
    have : Send.blockSizeBytes = 1048576 := rfl
    omega
  simp [this]

/-! ## Case analysis of one step -/

set_option maxHeartbeats 1600000 in
/-- Every step of the receiver is one of sixteen cases, each with its events and
successor state spelled out. -/
theorem recv_step_cases (hdr : Header)
    (P : Recv.State → Resp → List Event × Recv.State → Prop)
    (exited : ∀ s r c, s.pc = Recv.Pc.exited c → P s r ([], s))
    (createFail : ∀ s r, s.pc = Recv.Pc.CreateListenerSession → r.status ≠ 0 →
      P s r
        ([Event.easyrdma_CreateListenerSession r.status r.session,
          Event.cout (Output.errorCreatingSession r.status)] ++
          (Recv.catchHandler hdr
            { s with status := r.status,
                     listenSession := r.session.getD s.listenSession }).1,
         { s with status := r.status, listenSession := r.session.getD s.listenSession,
                  pc := Recv.Pc.exited (-1) }))
    (createOk : ∀ s r, s.pc = Recv.Pc.CreateListenerSession → r.status = 0 →
      P s r
        ([Event.easyrdma_CreateListenerSession 0 r.session,
          Event.cout Output.waitingForConnection],
         { s with status := 0, listenSession := r.session.getD s.listenSession,
                  pc := Recv.Pc.Accept }))
    (acceptFail : ∀ s r, s.pc = Recv.Pc.Accept → r.status ≠ 0 →
      P s r
        ([Event.easyrdma_Accept s.listenSession Recv.timeoutMs r.status r.session,
          Event.cout (Output.errorAcceptingConnection r.status)] ++
          (Recv.catchHandler hdr
            { s with status := r.status,
                     connectedSession := r.session.getD s.connectedSession }).1,
         { s with status := r.status, connectedSession := r.session.getD s.connectedSession,
                  pc := Recv.Pc.exited (-1) }))
    (acceptOk : ∀ s r, s.pc = Recv.Pc.Accept → r.status = 0 →
      P s r
        ([Event.easyrdma_Accept s.listenSession Recv.timeoutMs 0 r.session,
          Event.cout Output.accepted],
         { s with status := 0, connectedSession := r.session.getD s.connectedSession,
                  pc := Recv.Pc.ConfigureBuffers }))
    (configureDisconnected : ∀ s r, s.pc = Recv.Pc.ConfigureBuffers →
      r.status = hdr.easyrdma_Error_Disconnected → r.status ≠ 0 →
      P s r
        ([Event.easyrdma_ConfigureBuffers s.connectedSession Recv.blockSizeBytes
            Recv.numBuffers r.status,
          Event.cout Output.disconnected, Event.cout (Output.received 0),
          Event.easyrdma_CloseSession s.connectedSession,
          Event.cout Output.waitingForConnection],
         { s with status := r.status, totalReceivedBytes := 0, numReceivedBytes := 0,
                  connectedSession := hdr.easyrdma_InvalidSession, pc := Recv.Pc.Accept }))
    (configureDisconnectedZero : ∀ s r, s.pc = Recv.Pc.ConfigureBuffers →
      r.status = hdr.easyrdma_Error_Disconnected → r.status = 0 →
      P s r
        ([Event.easyrdma_ConfigureBuffers s.connectedSession Recv.blockSizeBytes
            Recv.numBuffers 0,
          Event.cout Output.disconnected],
         { s with status := 0, totalReceivedBytes := 0, numReceivedBytes := 0,
                  pc := Recv.Pc.AcquireReceivedRegion }))
    (configureFail : ∀ s r, s.pc = Recv.Pc.ConfigureBuffers →
      r.status ≠ hdr.easyrdma_Error_Disconnected → r.status ≠ 0 →
      P s r
        ([Event.easyrdma_ConfigureBuffers s.connectedSession Recv.blockSizeBytes
            Recv.numBuffers r.status,
          Event.cout (Output.errorConfiguringBuffers r.status)] ++
          (Recv.catchHandler hdr { s with status := r.status }).1,
         { s with status := r.status, pc := Recv.Pc.exited (-1) }))
    (configureOk : ∀ s r, s.pc = Recv.Pc.ConfigureBuffers →
      r.status ≠ hdr.easyrdma_Error_Disconnected → r.status = 0 →
      P s r
        ([Event.easyrdma_ConfigureBuffers s.connectedSession Recv.blockSizeBytes
            Recv.numBuffers 0],
         { s with status := 0, totalReceivedBytes := 0, numReceivedBytes := 0,
                  pc := Recv.Pc.AcquireReceivedRegion }))
    (acquireDisconnected : ∀ s r, s.pc = Recv.Pc.AcquireReceivedRegion →
      r.status = hdr.easyrdma_Error_Disconnected →
      P s r
        ([Event.easyrdma_AcquireReceivedRegion s.connectedSession Recv.timeoutMs r.status
            r.region,
          Event.cout Output.disconnected, Event.cout (Output.received s.totalReceivedBytes),
          Event.easyrdma_CloseSession s.connectedSession,
          Event.cout Output.waitingForConnection],
         { s with status := r.status, bufferRegion := r.region,
                  connectedSession := hdr.easyrdma_InvalidSession, pc := Recv.Pc.Accept }))
    (acquireFail : ∀ s r, s.pc = Recv.Pc.AcquireReceivedRegion →
      r.status ≠ hdr.easyrdma_Error_Disconnected → r.status ≠ 0 →
      P s r
        ([Event.easyrdma_AcquireReceivedRegion s.connectedSession Recv.timeoutMs r.status
            r.region,
          Event.cout (Output.errorAcquiringReceivedRegion r.status)] ++
          (Recv.catchHandler hdr { s with status := r.status, bufferRegion := r.region }).1,
         { s with status := r.status, bufferRegion := r.region, pc := Recv.Pc.exited (-1) }))
    (acquireOk : ∀ s r, s.pc = Recv.Pc.AcquireReceivedRegion →
      r.status ≠ hdr.easyrdma_Error_Disconnected → r.status = 0 →
      P s r
        ([Event.easyrdma_AcquireReceivedRegion s.connectedSession Recv.timeoutMs 0 r.region],
         { s with status := 0, bufferRegion := r.region,
                  numReceivedBytes := u64 (s.numReceivedBytes + r.region.usedSize),
                  totalReceivedBytes := u64 (s.totalReceivedBytes + r.region.usedSize),
                  pc := Recv.Pc.ReleaseReceivedBufferRegion }))
    (releaseDisconnected : ∀ s r, s.pc = Recv.Pc.ReleaseReceivedBufferRegion →
      r.status = hdr.easyrdma_Error_Disconnected →
      P s r
        ([Event.easyrdma_ReleaseReceivedBufferRegion s.connectedSession s.bufferRegion r.status,
          Event.cout Output.disconnected, Event.cout (Output.received s.totalReceivedBytes),
          Event.easyrdma_CloseSession s.connectedSession,
          Event.cout Output.waitingForConnection],
         { s with status := r.status,
                  connectedSession := hdr.easyrdma_InvalidSession, pc := Recv.Pc.Accept }))
    (releaseFail : ∀ s r, s.pc = Recv.Pc.ReleaseReceivedBufferRegion →
      r.status ≠ hdr.easyrdma_Error_Disconnected → r.status ≠ 0 →
      P s r
        ([Event.easyrdma_ReleaseReceivedBufferRegion s.connectedSession s.bufferRegion r.status,
          Event.cout (Output.errorReleasingReceivedRegion r.status)] ++
          (Recv.catchHandler hdr { s with status := r.status }).1,
         { s with status := r.status, pc := Recv.Pc.exited (-1) }))
    (releaseOkReport : ∀ s r, s.pc = Recv.Pc.ReleaseReceivedBufferRegion →
      r.status ≠ hdr.easyrdma_Error_Disconnected → r.status = 0 → r.durationMs ≥ 1000 →
      P s r
        ([Event.easyrdma_ReleaseReceivedBufferRegion s.connectedSession s.bufferRegion 0,
          Event.cout (Output.bandwidth s.numReceivedBytes)],
         { s with status := 0, numReceivedBytes := 0, pc := Recv.Pc.AcquireReceivedRegion }))
    (releaseOk : ∀ s r, s.pc = Recv.Pc.ReleaseReceivedBufferRegion →
      r.status ≠ hdr.easyrdma_Error_Disconnected → r.status = 0 → ¬ r.durationMs ≥ 1000 →
      P s r
        ([Event.easyrdma_ReleaseReceivedBufferRegion s.connectedSession s.bufferRegion 0],
         { s with status := 0, pc := Recv.Pc.AcquireReceivedRegion })) :
    ∀ s r, P s r (Recv.step hdr s r) := by
  intro s r
  cases hpc : s.pc with
  | exited c =>
    have := exited s r c hpc
    simpa [Recv.step, hpc] using this
  | CreateListenerSession =>
    by_cases hr : r.status = 0
    · have := createOk s r hpc hr
      simpa [Recv.step, hpc, hr, Recv.acceptLoopHead] using this
    · have := createFail s r hpc hr
      simpa [Recv.step, hpc, hr, Recv.catchHandler] using this
  | Accept =>
    by_cases hr : r.status = 0
    · have := acceptOk s r hpc hr
      simpa [Recv.step, hpc, hr] using this
    · have := acceptFail s r hpc hr
      simpa [Recv.step, hpc, hr, Recv.catchHandler] using this
  | ConfigureBuffers =>
    by_cases hd : r.status = hdr.easyrdma_Error_Disconnected
    · by_cases hr : r.status = 0
      · have := configureDisconnectedZero s r hpc hd hr
        have hd2 : (0 : Int) = hdr.easyrdma_Error_Disconnected := by rw [← hr]; exact hd
        simpa [Recv.step, hpc, hr, ← hd2, Recv.receiveLoopHead] using this
      · have := configureDisconnected s r hpc hd hr
        have hd2 : ¬ hdr.easyrdma_Error_Disconnected = 0 := by rw [← hd]; exact hr
        simpa [Recv.step, hpc, hd, hd2, Recv.receiveLoopHead, Recv.afterReceiveLoop,
          Recv.acceptLoopHead] using this
    · by_cases hr : r.status = 0
      · have := configureOk s r hpc hd hr
        have hd2 : ¬ (0 : Int) = hdr.easyrdma_Error_Disconnected := by rw [← hr]; exact hd
        simpa [Recv.step, hpc, hr, hd2, Recv.receiveLoopHead] using this
      · have := configureFail s r hpc hd hr
        simpa [Recv.step, hpc, hr, hd, Recv.catchHandler] using this
  | AcquireReceivedRegion =>
    by_cases hd : r.status = hdr.easyrdma_Error_Disconnected
    · have := acquireDisconnected s r hpc hd
      simpa [Recv.step, hpc, hd, Recv.afterReceiveLoop, Recv.acceptLoopHead] using this
    · by_cases hr : r.status = 0
      · have := acquireOk s r hpc hd hr
        have hd2 : ¬ (0 : Int) = hdr.easyrdma_Error_Disconnected := by rw [← hr]; exact hd
        simpa [Recv.step, hpc, hr, hd2] using this
      · have := acquireFail s r hpc hd hr
        simpa [Recv.step, hpc, hr, hd, Recv.catchHandler] using this
  | ReleaseReceivedBufferRegion =>
    by_cases hd : r.status = hdr.easyrdma_Error_Disconnected
    · have := releaseDisconnected s r hpc hd
      simpa [Recv.step, hpc, hd, Recv.afterReceiveLoop, Recv.acceptLoopHead] using this
    · by_cases hr : r.status = 0
      · have hd2 : ¬ (0 : Int) = hdr.easyrdma_Error_Disconnected := by rw [← hr]; exact hd
        by_cases ht : r.durationMs ≥ 1000
        · have := releaseOkReport s r hpc hd hr ht
          simpa [Recv.step, hpc, hr, hd2, ht, Recv.receiveLoopHead] using this
        · have := releaseOk s r hpc hd hr ht
          simpa [Recv.step, hpc, hr, hd2, ht, Recv.receiveLoopHead] using this
      · have := releaseFail s r hpc hd hr
        simpa [Recv.step, hpc, hr, hd, Recv.catchHandler] using this

/-! ## The monitors at work -/

/-- A second release of the same region is rejected. -/
theorem releaseDiscipline_rejects_second_release :
    observe releaseDiscipline none
      [Event.easyrdma_AcquireReceivedRegion 2 (-1) 0 easyrdma_InternalBufferRegion.zero,
       Event.easyrdma_ReleaseReceivedBufferRegion 2 easyrdma_InternalBufferRegion.zero 0,
       Event.easyrdma_ReleaseReceivedBufferRegion 2 easyrdma_InternalBufferRegion.zero 0] =
      none := by
  decide

/-- A release after a failed acquire is rejected. -/
theorem releaseDiscipline_rejects_release_after_failed_acquire :
    observe releaseDiscipline none
      [Event.easyrdma_AcquireReceivedRegion 2 (-1) (-7) easyrdma_InternalBufferRegion.zero,
       Event.easyrdma_ReleaseReceivedBufferRegion 2 easyrdma_InternalBufferRegion.zero 0] =
      none := by
  decide

/-- Acquiring again, or closing the session, while a region is held is
rejected. -/
theorem releaseDiscipline_rejects_unreleased_region :
    observe releaseDiscipline none
        [Event.easyrdma_AcquireReceivedRegion 2 (-1) 0 easyrdma_InternalBufferRegion.zero,
         Event.easyrdma_AcquireReceivedRegion 2 (-1) 0 easyrdma_InternalBufferRegion.zero] =
        none ∧
      observe releaseDiscipline none
        [Event.easyrdma_AcquireReceivedRegion 2 (-1) 0 easyrdma_InternalBufferRegion.zero,
         Event.easyrdma_CloseSession 2] = none := by
  decide

/-- A printed total that misses an acquired region, or still counts a region
of the previous session, is rejected. -/
theorem receivedTotal_rejects_wrong_total :
    observe receivedTotal ([], false)
        [Event.easyrdma_Accept 1 (-1) 0 (some 2),
         Event.easyrdma_AcquireReceivedRegion 2 (-1) 0 ⟨0, 64, 7, []⟩,
         Event.cout (Output.received 0)] = none ∧
      observe receivedTotal ([], false)
        [Event.easyrdma_Accept 1 (-1) 0 (some 2),
         Event.easyrdma_AcquireReceivedRegion 2 (-1) 0 ⟨0, 64, 7, []⟩,
         Event.cout (Output.received 7),
         Event.easyrdma_CloseSession 2,
         Event.easyrdma_Accept 1 (-1) 0 (some 3),
         Event.cout (Output.received 7)] = none := by
  decide

/-- A copy larger than the acquired region, and a queued region with
`usedSize > bufferSize`, are rejected. -/
theorem copyWithinRegion_rejects_overflow :
    observe copyWithinRegion none
        [Event.easyrdma_AcquireSendRegion 1 5000 0 ⟨4096, 16, 0, []⟩,
         Event.memcpy 4096 17] = none ∧
      observe copyWithinRegion none
        [Event.easyrdma_QueueBufferRegion 1 ⟨4096, 16, 17, []⟩ 0] = none := by
  decide

/-- A second `easyrdma_ConfigureBuffers`, a configure before the connection is
established, an acquire after a failed configure and a call on a closed handle
are all rejected. -/
theorem sessionProtocol_rejects_violations :
    (observe sessionProtocol (fun _ => Phase.fresh)
        [Event.easyrdma_Connect 1 5000 0,
         Event.easyrdma_ConfigureBuffers 1 1048576 50 0,
         Event.easyrdma_ConfigureBuffers 1 1048576 50 0]).isNone = true ∧
      (observe sessionProtocol (fun _ => Phase.fresh)
        [Event.easyrdma_Connect 1 5000 (-2),
         Event.easyrdma_ConfigureBuffers 1 1048576 50 0]).isNone = true ∧
      (observe sessionProtocol (fun _ => Phase.fresh)
        [Event.easyrdma_Accept 1 (-1) 0 (some 2),
         Event.easyrdma_ConfigureBuffers 2 2097152 10 (-7),
         Event.easyrdma_AcquireReceivedRegion 2 (-1) 0 easyrdma_InternalBufferRegion.zero]).isNone =
        true ∧
      (observe sessionProtocol (fun _ => Phase.fresh)
        [Event.easyrdma_CloseSession 1,
         Event.easyrdma_Accept 1 (-1) 0 (some 2)]).isNone = true ∧
      (observe sessionProtocol (fun _ => Phase.fresh)
        [Event.easyrdma_CloseSession 1, Event.easyrdma_CloseSession 1]).isNone = true := by
  decide

/-- A handle issued twice, `easyrdma_InvalidSession` issued as a handle, and a
handle stored by a failing call are not the behaviour `libraryOK` describes; a
failing call that stores `easyrdma_InvalidSession` is. -/
theorem libraryOK_rejects_misbehaviour :
    observe (libraryOK hdr0) []
        [Event.easyrdma_CreateListenerSession 0 (some 1),
         Event.easyrdma_Accept 1 (-1) 0 (some 1)] = none ∧
      observe (libraryOK hdr0) [] [Event.easyrdma_CreateListenerSession 0 (some 0)] = none ∧
      observe (libraryOK hdr0) []
        [Event.easyrdma_CreateListenerSession 0 (some 1),
         Event.easyrdma_Accept 1 (-1) (-2) (some 5)] = none ∧
      observe (libraryOK hdr0) []
        [Event.easyrdma_CreateListenerSession 0 (some 1),
         Event.easyrdma_Accept 1 (-1) (-2) (some 0)] = some [1] := by
  decide

/-! ## C1 -/

/-- C1: if the receiver is waiting in `easyrdma_ConfigureBuffers`,
`easyrdma_AcquireReceivedRegion` or `easyrdma_ReleaseReceivedBufferRegion` on a
connected session and the call returns `easyrdma_Error_Disconnected`, then the
receive loop is over: the very next actions are the lines "Disconnected" and
"Received ...", `easyrdma_CloseSession` on the connected session and the
"Waiting for connection..." line; `main` has not returned, the connected
handle is `easyrdma_InvalidSession` again, the listener handle is unchanged,
and the next call made is `easyrdma_Accept` on that listener. -/
theorem recv_disconnected_ends_session_only (hdr : Header) (argc : Int)
    (pre : List Resp) (d a : Resp)
    (hdisc : hdr.easyrdma_Error_Disconnected ≠ 0)
    (hpc : (Recv.main hdr argc pre).2.pc = Recv.Pc.ConfigureBuffers ∨
      (Recv.main hdr argc pre).2.pc = Recv.Pc.AcquireReceivedRegion ∨
      (Recv.main hdr argc pre).2.pc = Recv.Pc.ReleaseReceivedBufferRegion)
    (hd : d.status = hdr.easyrdma_Error_Disconnected) :
    (∃ call total,
      (call = Event.easyrdma_ConfigureBuffers (Recv.main hdr argc pre).2.connectedSession
          Recv.blockSizeBytes Recv.numBuffers d.status ∨
        call = Event.easyrdma_AcquireReceivedRegion (Recv.main hdr argc pre).2.connectedSession
          Recv.timeoutMs d.status d.region ∨
        call = Event.easyrdma_ReleaseReceivedBufferRegion
          (Recv.main hdr argc pre).2.connectedSession
          (Recv.main hdr argc pre).2.bufferRegion d.status) ∧
      (Recv.main hdr argc (pre ++ [d])).1 =
        (Recv.main hdr argc pre).1 ++
          [call, Event.cout Output.disconnected, Event.cout (Output.received total),
           Event.easyrdma_CloseSession (Recv.main hdr argc pre).2.connectedSession,
           Event.cout Output.waitingForConnection]) ∧
      (Recv.main hdr argc (pre ++ [d])).2.pc = Recv.Pc.Accept ∧
      Recv.exitCode (Recv.main hdr argc (pre ++ [d])).2 = none ∧
      (Recv.main hdr argc (pre ++ [d])).2.connectedSession = hdr.easyrdma_InvalidSession ∧
      (Recv.main hdr argc (pre ++ [d])).2.listenSession =
        (Recv.main hdr argc pre).2.listenSession ∧
      ∃ tl, (Recv.main hdr argc (pre ++ [d, a])).1 =
        (Recv.main hdr argc (pre ++ [d])).1 ++
          Event.easyrdma_Accept (Recv.main hdr argc pre).2.listenSession Recv.timeoutMs
            a.status a.session :: tl := by
  have hd0 : d.status ≠ 0 := by rw [hd]; exact hdisc
  have hd1 : ¬ hdr.easyrdma_Error_Disconnected = 0 := hdisc
  rw [show pre ++ [d, a] = (pre ++ [d]) ++ [a] by simp]
  rw [recv_main_append hdr argc (pre ++ [d]) [a], recv_main_append hdr argc pre [d]]
  rcases hpc with h | h | h
  · refine ⟨⟨_, 0, Or.inl rfl, ?_⟩, ?_⟩
    · simp [exec, Recv.step, h, hd, hd1, Recv.receiveLoopHead, Recv.afterReceiveLoop,
        Recv.acceptLoopHead]
    · simp [exec, Recv.step, h, hd, hd1, Recv.receiveLoopHead, Recv.afterReceiveLoop,
        Recv.acceptLoopHead, Recv.exitCode]
      split <;> simp
  · refine ⟨⟨_, (Recv.main hdr argc pre).2.totalReceivedBytes, Or.inr (Or.inl rfl), ?_⟩, ?_⟩
    · simp [exec, Recv.step, h, hd, hd1, Recv.receiveLoopHead, Recv.afterReceiveLoop,
        Recv.acceptLoopHead]
    · simp [exec, Recv.step, h, hd, hd1, Recv.receiveLoopHead, Recv.afterReceiveLoop,
        Recv.acceptLoopHead, Recv.exitCode]
      split <;> simp
  · refine ⟨⟨_, (Recv.main hdr argc pre).2.totalReceivedBytes, Or.inr (Or.inr rfl), ?_⟩, ?_⟩
    · simp [exec, Recv.step, h, hd, hd1, Recv.receiveLoopHead, Recv.afterReceiveLoop,
        Recv.acceptLoopHead]
    · simp [exec, Recv.step, h, hd, hd1, Recv.receiveLoopHead, Recv.afterReceiveLoop,
        Recv.acceptLoopHead, Recv.exitCode]
      split <;> simp

theorem recv_disconnected_ends_session_only_witness :
    hdr0.easyrdma_Error_Disconnected ≠ 0 ∧
      (Recv.main hdr0 3 [okSession 0 1, okSession 0 2]).2.pc = Recv.Pc.ConfigureBuffers ∧
      (Recv.main hdr0 3 ([okSession 0 1, okSession 0 2] ++ [ok (-1)])).2.pc = Recv.Pc.Accept ∧
      Recv.exitCode (Recv.main hdr0 3 ([okSession 0 1, okSession 0 2] ++ [ok (-1)])).2 = none :=
  ⟨by decide, by decide,
    (recv_disconnected_ends_session_only hdr0 3 [okSession 0 1, okSession 0 2] (ok (-1))
      (okSession 0 3) (by decide) (Or.inl (by decide)) (by decide)).2.1,
    (recv_disconnected_ends_session_only hdr0 3 [okSession 0 1, okSession 0 2] (ok (-1))
      (okSession 0 3) (by decide) (Or.inl (by decide)) (by decide)).2.2.1⟩

/-! ## C2 -/

theorem send_copy_within_region (hdr : Header) (argc : Int) (env : List Resp) :
    ∃ m, observe copyWithinRegion none (Send.main hdr argc env).1 = some m := by
  have h := exec_observe Send.step copyWithinRegion none
    (fun s _ => s.pc = Send.Pc.QueueBufferRegion →
      s.bufferRegion.usedSize ≤ s.bufferRegion.bufferSize)
    (by
      intro s r q hR
      cases hpc : s.pc with
      | exited c => exact ⟨q, by simp [Send.step, hpc, observe], by simp [Send.step, hpc]⟩
      | CreateConnectorSession =>
        by_cases hr : r.status = 0 <;>
          simp [Send.step, hpc, hr, observe, copyWithinRegion]
      | Connect =>
        by_cases hr : r.status = 0 <;>
          simp [Send.step, hpc, hr, observe, copyWithinRegion]
      | ConfigureBuffers =>
        by_cases hr : r.status = 0 <;>
          simp [Send.step, hpc, hr, observe, copyWithinRegion, Send.loopHead]
      | AcquireSendRegion =>
        by_cases hr : r.status = 0
        · by_cases hb : r.region.bufferSize < 1048576
          · simp [Send.step, hpc, hr, hb, observe, copyWithinRegion, send_sendData_length]
          · have hb2 : 1048576 ≤ r.region.bufferSize := by omega
            simp [Send.step, hpc, hr, hb, hb2, observe, copyWithinRegion, send_sendData_length]
        · simp [Send.step, hpc, hr, observe, copyWithinRegion]
      | QueueBufferRegion =>
        have hq := hR hpc
        by_cases hr : r.status = 0 <;>
          simp [Send.step, hpc, hr, hq, observe, copyWithinRegion, Send.loopHead])
    env (Send.start hdr argc).2 (Send.start hdr argc).1
    (by
      by_cases ha : argc < 4 <;> simp [Send.start, ha, observe, copyWithinRegion])
  obtain ⟨m, hm, _⟩ := h
  exact ⟨m, by simpa [Send.main] using hm⟩

/-- C2: whenever the sender is waiting in `easyrdma_AcquireSendRegion` and the
call succeeds with region `a.region`: if `bufferSize < 1048576` the run ends
with the "too small" line, `easyrdma_CloseSession` and exit code -1 (no
`memcpy`, no `easyrdma_QueueBufferRegion`, whatever responses remain);
otherwise the next actions are a `memcpy` of exactly 1048576 bytes to the
region's buffer and `easyrdma_QueueBufferRegion` of that region with
`usedSize = 1048576`.  In every run each `memcpy` writes at most `bufferSize`
bytes into the region just acquired and every queued region has
`usedSize ≤ bufferSize` (the monitor `copyWithinRegion` accepts the trace). -/
theorem send_region_guard (hdr : Header) (argc : Int) (pre : List Resp) (a q : Resp)
    (rest env : List Resp)
    (hpc : (Send.main hdr argc pre).2.pc = Send.Pc.AcquireSendRegion) (ha : a.status = 0) :
    (a.region.bufferSize < 1048576 →
      (Send.main hdr argc (pre ++ a :: rest)).1 =
          (Send.main hdr argc pre).1 ++
            [Event.easyrdma_AcquireSendRegion (Send.main hdr argc pre).2.session
               Send.timeoutMs 0 a.region,
             Event.cout (Output.sendBufferTooSmall a.region.bufferSize 1048576),
             Event.easyrdma_CloseSession (Send.main hdr argc pre).2.session] ∧
        Send.exitCode (Send.main hdr argc (pre ++ a :: rest)).2 = some (-1)) ∧
      (1048576 ≤ a.region.bufferSize →
        ∃ tl, (Send.main hdr argc (pre ++ a :: q :: rest)).1 =
          (Send.main hdr argc pre).1 ++
            ([Event.easyrdma_AcquireSendRegion (Send.main hdr argc pre).2.session
                Send.timeoutMs 0 a.region,
              Event.memcpy a.region.buffer 1048576,
              Event.easyrdma_QueueBufferRegion (Send.main hdr argc pre).2.session
                ⟨a.region.buffer, a.region.bufferSize, 1048576,
                  memcpy a.region.bytes Send.sendData.data 1048576⟩ q.status] ++ tl)) ∧
      ∃ m, observe copyWithinRegion none (Send.main hdr argc env).1 = some m := by
  refine ⟨?_, ?_, send_copy_within_region hdr argc env⟩
  · intro hb
    rw [send_main_append]
    simp [exec, Send.step, hpc, ha, hb, send_sendData_length, Send.exitCode]
  · intro hb
    have hb2 : ¬ a.region.bufferSize < 1048576 := by omega
    rw [send_main_append]
    by_cases hq : q.status = 0
    · simp [exec, Send.step, hpc, ha, hb2, hq, send_sendData_length, Send.loopHead]
    · simp [exec, Send.step, hpc, ha, hb2, hq, send_sendData_length]

theorem send_run_before_acquire :
    (Send.main hdr0 4 [okSession 0 1, ok 0, ok 0]).2.pc = Send.Pc.AcquireSendRegion := by
  decide

theorem send_region_guard_witness :
    (Send.main hdr0 4 [okSession 0 1, ok 0, ok 0]).2.pc = Send.Pc.AcquireSendRegion ∧
      (okRegion 0 16 0).status = 0 ∧ (okRegion 0 16 0).region.bufferSize < 1048576 ∧
      Send.exitCode
        (Send.main hdr0 4 ([okSession 0 1, ok 0, ok 0] ++ okRegion 0 16 0 :: [ok 0])).2 =
        some (-1) ∧
      1048576 ≤ (okRegion 0 1048576 0).region.bufferSize ∧
      ∃ tl, (Send.main hdr0 4
          ([okSession 0 1, ok 0, ok 0] ++ okRegion 0 1048576 0 :: ok 0 :: [])).1 =
        (Send.main hdr0 4 [okSession 0 1, ok 0, ok 0]).1 ++
          ([Event.easyrdma_AcquireSendRegion (Send.main hdr0 4 [okSession 0 1, ok 0, ok 0]).2.session
              Send.timeoutMs 0 (okRegion 0 1048576 0).region,
            Event.memcpy (okRegion 0 1048576 0).region.buffer 1048576,
            Event.easyrdma_QueueBufferRegion (Send.main hdr0 4 [okSession 0 1, ok 0, ok 0]).2.session
              ⟨(okRegion 0 1048576 0).region.buffer, (okRegion 0 1048576 0).region.bufferSize,
                1048576, memcpy (okRegion 0 1048576 0).region.bytes Send.sendData.data 1048576⟩
              (ok 0).status] ++ tl) :=
  ⟨send_run_before_acquire, by decide, by decide,
    ((send_region_guard hdr0 4 [okSession 0 1, ok 0, ok 0] (okRegion 0 16 0) (ok 0) [ok 0] []
      send_run_before_acquire (by decide)).1 (by decide)).2,
    by decide,
    (send_region_guard hdr0 4 [okSession 0 1, ok 0, ok 0] (okRegion 0 1048576 0) (ok 0) [] []
      send_run_before_acquire (by decide)).2.1 (by decide)⟩

/-! ## C3 -/

/-- C4 (the path that breaks it): when `easyrdma_CreateConnectorSession` has
succeeded and `easyrdma_Connect` returns a non-zero status, the sender prints
the error and returns -1; the whole run consists of the two calls and the
error line, so `easyrdma_CloseSession` is never called on the session. -/
theorem send_connect_failure_returns_without_close (hdr : Header) (argc : Int)
    (c n : Resp) (rest : List Resp)
    (hargc : ¬ argc < 4) (hc : c.status = 0) (hn : n.status ≠ 0) :
    (Send.main hdr argc (c :: n :: rest)).1 =
        [Event.easyrdma_CreateConnectorSession c.status c.session,
         Event.easyrdma_Connect (c.session.getD hdr.easyrdma_InvalidSession)
           Send.timeoutMs n.status,
         Event.cout (Output.errorConnecting n.status)] ∧
      Send.exitCode (Send.main hdr argc (c :: n :: rest)).2 = some (-1) ∧
      ∀ h : Nat, Event.easyrdma_CloseSession h ∉ (Send.main hdr argc (c :: n :: rest)).1 := by
  have key : Send.main hdr argc (c :: n :: rest) =
      ([Event.easyrdma_CreateConnectorSession c.status c.session,
        Event.easyrdma_Connect (c.session.getD hdr.easyrdma_InvalidSession)
          Send.timeoutMs n.status,
        Event.cout (Output.errorConnecting n.status)],
       { pc := Send.Pc.exited (-1)
         session := c.session.getD hdr.easyrdma_InvalidSession
         curSendSizeBytes := 0
         bufferRegion := easyrdma_InternalBufferRegion.zero }) := by
    simp [Send.main, Send.start, exec, Send.step, hargc, hc, hn]
  rw [key]
  simp [Send.exitCode]

theorem send_connect_failure_returns_without_close_witness :
    (Send.main hdr0 4 [okSession 0 7, ok (-2)]).1 =
        [Event.easyrdma_CreateConnectorSession 0 (some 7),
         Event.easyrdma_Connect 7 5000 (-2),
         Event.cout (Output.errorConnecting (-2))] ∧
      Send.exitCode (Send.main hdr0 4 [okSession 0 7, ok (-2)]).2 = some (-1) ∧
      ∀ h : Nat, Event.easyrdma_CloseSession h ∉ (Send.main hdr0 4 [okSession 0 7, ok (-2)]).1 :=
  send_connect_failure_returns_without_close hdr0 4 (okSession 0 7) (ok (-2)) []
    (by decide) (by decide) (by decide)

/-! ## C5 -/

/-- C5 (as stated, refuted): with `easyrdma_Accept` returning the Timeout
status on the first call, the receiver makes no second `easyrdma_Accept`: it
closes the listener and `main` returns -1, although further responses were
available. -/
theorem recv_accept_timeout_not_retried :
    (Recv.main hdr0 3
        [okSession 0 1, ok hdr0.easyrdma_Error_Timeout, okSession 0 2, ok 0]).1 =
        [Event.easyrdma_CreateListenerSession 0 (some 1),
         Event.cout Output.waitingForConnection,
         Event.easyrdma_Accept 1 (-1) hdr0.easyrdma_Error_Timeout none,
         Event.cout (Output.errorAcceptingConnection hdr0.easyrdma_Error_Timeout),
         Event.easyrdma_CloseSession 1] ∧
      Recv.exitCode (Recv.main hdr0 3
        [okSession 0 1, ok hdr0.easyrdma_Error_Timeout, okSession 0 2, ok 0]).2 = some (-1) := by
  decide

/-- C5 (amended): whenever the receiver is waiting in `easyrdma_Accept` and the
call returns a non-zero status (Timeout included), the receiver does not call
`easyrdma_Accept` again: it prints the error, the handler closes the listener
handle and the connected handle (each only if it differs from
`easyrdma_InvalidSession`), and `main` returns -1; later responses are never
consumed. -/
theorem recv_accept_failure_is_fatal (hdr : Header) (argc : Int) (pre : List Resp)
    (a : Resp) (rest : List Resp)
    (hpc : (Recv.main hdr argc pre).2.pc = Recv.Pc.Accept) (ha : a.status ≠ 0) :
    (Recv.main hdr argc (pre ++ a :: rest)).1 =
        (Recv.main hdr argc pre).1 ++
          ([Event.easyrdma_Accept (Recv.main hdr argc pre).2.listenSession Recv.timeoutMs
              a.status a.session,
            Event.cout (Output.errorAcceptingConnection a.status)] ++
           ((if (Recv.main hdr argc pre).2.listenSession ≠ hdr.easyrdma_InvalidSession then
              [Event.easyrdma_CloseSession (Recv.main hdr argc pre).2.listenSession]
             else []) ++
            (if a.session.getD (Recv.main hdr argc pre).2.connectedSession ≠
                hdr.easyrdma_InvalidSession then
              [Event.easyrdma_CloseSession
                (a.session.getD (Recv.main hdr argc pre).2.connectedSession)]
             else []))) ∧
      Recv.exitCode (Recv.main hdr argc (pre ++ a :: rest)).2 = some (-1) := by
  rw [recv_main_append]
  simp [exec, Recv.step, hpc, ha, Recv.catchHandler, Recv.exitCode]

theorem recv_accept_failure_is_fatal_witness :
    (Recv.main hdr0 3 ([okSession 0 1] ++ ok hdr0.easyrdma_Error_Timeout :: [okSession 0 2])).1 =
        (Recv.main hdr0 3 [okSession 0 1]).1 ++
          ([Event.easyrdma_Accept (Recv.main hdr0 3 [okSession 0 1]).2.listenSession
              Recv.timeoutMs (ok hdr0.easyrdma_Error_Timeout).status
              (ok hdr0.easyrdma_Error_Timeout).session,
            Event.cout (Output.errorAcceptingConnection (ok hdr0.easyrdma_Error_Timeout).status)] ++
           ((if (Recv.main hdr0 3 [okSession 0 1]).2.listenSession ≠
                hdr0.easyrdma_InvalidSession then
              [Event.easyrdma_CloseSession (Recv.main hdr0 3 [okSession 0 1]).2.listenSession]
             else []) ++
            (if (ok hdr0.easyrdma_Error_Timeout).session.getD
                  (Recv.main hdr0 3 [okSession 0 1]).2.connectedSession ≠
                hdr0.easyrdma_InvalidSession then
              [Event.easyrdma_CloseSession
                ((ok hdr0.easyrdma_Error_Timeout).session.getD
                  (Recv.main hdr0 3 [okSession 0 1]).2.connectedSession)]
             else []))) ∧
      Recv.exitCode
        (Recv.main hdr0 3 ([okSession 0 1] ++ ok hdr0.easyrdma_Error_Timeout :: [okSession 0 2])).2 =
        some (-1) :=
  recv_accept_failure_is_fatal hdr0 3 [okSession 0 1] (ok hdr0.easyrdma_Error_Timeout)
    [okSession 0 2] (by decide) (by decide)

/-! ## C6 -/

theorem send_step_protocol (s : Send.State) (r : Resp) (φ : Nat → Phase)
    (hR : Send.protocolRel s φ) :
    ∃ φ1, observe sessionProtocol φ (Send.step s r).1 = some φ1 ∧
      Send.protocolRel (Send.step s r).2 φ1 := by
  cases hpc : s.pc with
  | exited c => simp [Send.step, hpc, observe, Send.protocolRel]
  | CreateConnectorSession =>
    simp only [Send.protocolRel, hpc] at hR
    by_cases hr : r.status = 0 <;>
      simp [Send.step, hpc, hr, observe, sessionProtocol, Send.protocolRel, hR]
  | Connect =>
    simp only [Send.protocolRel, hpc] at hR
    by_cases hr : r.status = 0 <;>
      simp [Send.step, hpc, hr, observe, sessionProtocol, Send.protocolRel, hR]
  | ConfigureBuffers =>
    simp only [Send.protocolRel, hpc] at hR
    by_cases hr : r.status = 0 <;>
      simp [Send.step, hpc, hr, observe, sessionProtocol, Send.protocolRel, hR, Send.loopHead]
  | AcquireSendRegion =>
    simp only [Send.protocolRel, hpc] at hR
    by_cases hr : r.status = 0
    · by_cases hb : r.region.bufferSize < 1048576 <;>
        simp [Send.step, hpc, hr, hb, observe, sessionProtocol, Send.protocolRel, hR,
          send_sendData_length]
    · simp [Send.step, hpc, hr, observe, sessionProtocol, Send.protocolRel, hR]
  | QueueBufferRegion =>
    simp only [Send.protocolRel, hpc] at hR
    by_cases hr : r.status = 0 <;>
      simp [Send.step, hpc, hr, observe, sessionProtocol, Send.protocolRel, hR, Send.loopHead]

theorem send_protocol (hdr : Header) (argc : Int) (env : List Resp) :
    ∃ φ, observe sessionProtocol (fun _ => Phase.fresh) (Send.main hdr argc env).1 = some φ := by
  have h := exec_observe Send.step sessionProtocol (fun _ => Phase.fresh) Send.protocolRel
    send_step_protocol env (Send.start hdr argc).2 (Send.start hdr argc).1
    (by
      by_cases ha : argc < 4 <;>
        simp [Send.start, ha, observe, sessionProtocol, Send.protocolRel])
  obtain ⟨φ, hφ, _⟩ := h
  exact ⟨φ, by simpa [Send.main] using hφ⟩

theorem exists_of_match {μ : Type} (o : Option μ) (R : μ → Prop)
    (h : match o with
      | some q => R q
      | none => False) : ∃ q, o = some q ∧ R q := by
  cases o with
  | none => exact h.elim
  | some q => exact ⟨q, rfl, h⟩

theorem frame_update (a : List Nat) (φ : Nat → Phase) (x : Nat) (v : Phase) (hx : x ∈ a)
    (hfr : ∀ h, h ∉ a → φ h = Phase.fresh) :
    ∀ h, h ∉ a → Function.update φ x v h = Phase.fresh := by
  intro h hh
  have hne : h ≠ x := fun e => hh (e ▸ hx)
  rw [Function.update_noteq hne]
  exact hfr h hh

set_option maxHeartbeats 1000000 in
theorem recv_step_protocol (hdr : Header) :
    ∀ (s : Recv.State) (r : Resp) (a : List Nat) (φ : Nat → Phase),
      Recv.protocolRel hdr s a φ →
      ∀ a1, observe (handlesFresh hdr) a (Recv.step hdr s r).1 = some a1 →
      ∃ φ1, observe sessionProtocol φ (Recv.step hdr s r).1 = some φ1 ∧
        Recv.protocolRel hdr (Recv.step hdr s r).2 a1 φ1 := by
  apply recv_step_cases hdr (fun s r out =>
    ∀ (a : List Nat) (φ : Nat → Phase), Recv.protocolRel hdr s a φ →
      ∀ a1, observe (handlesFresh hdr) a out.1 = some a1 →
      ∃ φ1, observe sessionProtocol φ out.1 = some φ1 ∧ Recv.protocolRel hdr out.2 a1 φ1)
  all_goals intros
  all_goals rename_i a φ hrel a1 hobs
  all_goals obtain ⟨hfr, hrel⟩ := hrel
  all_goals apply exists_of_match
  case exited s r c h =>
    simp [observe] at hobs
    subst hobs
    simp [observe, Recv.protocolRel, h]
    exact hfr
  case createFail s r h1 h2 =>
    simp only [h1] at hrel
    obtain ⟨ha, hc, hl⟩ := hrel
    subst ha
    have hall : ∀ x, φ x = Phase.fresh := fun x => hfr x (by simp)
    cases hout : r.session with
    | some h =>
      have hhc : φ h ≠ Phase.closed := by rw [hall h]; decide
      by_cases hh : h = hdr.easyrdma_InvalidSession
      · simp [Recv.catchHandler, hout, hh, hc, observe, handlesFresh, storedOut, h2] at hobs ⊢
        subst hobs
        simp [observe, sessionProtocol, Recv.protocolRel]
        intro x _
        exact hall x
      · simp [Recv.catchHandler, hout, hh, hc, observe, handlesFresh, storedOut, h2] at hobs ⊢
        subst hobs
        simp [observe, sessionProtocol, Recv.protocolRel, hhc, Function.update_apply]
        intro x hx
        simp [hx, hall x]
    | none =>
      simp [Recv.catchHandler, hout, hl, hc, observe, handlesFresh, storedOut, h2] at hobs ⊢
      subst hobs
      simp [Recv.protocolRel, sessionProtocol]
      simpa using hfr
  case createOk s r h1 h2 =>
    simp only [h1] at hrel
    obtain ⟨ha, hc, hl⟩ := hrel
    subst ha
    have hall : ∀ x, φ x = Phase.fresh := fun x => hfr x (by simp)
    cases hout : r.session with
    | none => simp [observe, handlesFresh, storedOut, hout] at hobs
    | some h =>
      simp [observe, handlesFresh, storedOut, hout] at hobs
      subst hobs
      simp [Recv.protocolRel, sessionProtocol, observe, hc]
      exact ⟨fun x _ => hall x, hall h⟩
  case acceptFail s r h1 h2 =>
    simp only [h1] at hrel
    obtain ⟨hla, hlf, hc⟩ := hrel
    have hlc : φ s.listenSession ≠ Phase.closed := by rw [hlf]; decide
    cases hout : r.session with
    | some h =>
      by_cases hmem : h ∈ a
      · by_cases hh : h = hdr.easyrdma_InvalidSession
        · have hmem2 : hdr.easyrdma_InvalidSession ∈ a := hh ▸ hmem
          by_cases hl : s.listenSession = hdr.easyrdma_InvalidSession
          · simp [Recv.catchHandler, hout, hh, hl, observe, handlesFresh, storedOut, h2,
              hmem2] at hobs ⊢
            subst hobs
            have hlc2 : φ hdr.easyrdma_InvalidSession ≠ Phase.closed := hl ▸ hlc
            simp [observe, sessionProtocol, Recv.protocolRel, hlc2, h2]
            exact hfr
          · simp [Recv.catchHandler, hout, hh, hl, observe, handlesFresh, storedOut, h2,
              hmem2] at hobs ⊢
            subst hobs
            simp [observe, sessionProtocol, Recv.protocolRel, hlc, hlf, h2]
            exact frame_update a φ _ _ hla hfr
        · simp [observe, observe_append, handlesFresh, storedOut, hout, h2, hh, hmem] at hobs
      · have hhf : φ h = Phase.fresh := hfr h hmem
        have hhc : φ h ≠ Phase.closed := by rw [hhf]; decide
        have hne : h ≠ s.listenSession := fun e => hmem (e ▸ hla)
        have hne2 : s.listenSession ≠ h := fun e => hne e.symm
        simp only [Recv.catchHandler, hout, Option.getD_some] at hobs ⊢
        split_ifs at hobs ⊢ <;>
          simp [observe, handlesFresh, storedOut, h2, hmem] at hobs <;>
          subst hobs <;>
          simp [observe, sessionProtocol, Recv.protocolRel, hlc, hlf, hhc, hhf, h2, hne, hne2,
            Function.update_apply] <;>
          intro x hx hxh <;>
          have hxl : x ≠ s.listenSession := (fun e => hx (e ▸ hla)) <;>
          simp [hxl, hxh, hfr x hx]
    | none =>
      by_cases hl : s.listenSession = hdr.easyrdma_InvalidSession
      · simp [Recv.catchHandler, hout, hc, hl, observe, handlesFresh, storedOut, h2] at hobs ⊢
        subst hobs
        have hlc2 : φ hdr.easyrdma_InvalidSession ≠ Phase.closed := hl ▸ hlc
        simp [observe, sessionProtocol, Recv.protocolRel, hlc2]
        exact hfr
      · simp [Recv.catchHandler, hout, hc, hl, observe, handlesFresh, storedOut, h2] at hobs ⊢
        subst hobs
        simp [observe, sessionProtocol, Recv.protocolRel, hlc, hlf]
        exact frame_update a φ _ _ hla hfr
  case acceptOk s r h1 h2 =>
    simp only [h1] at hrel
    obtain ⟨hla, hlf, hc⟩ := hrel
    have hlc : φ s.listenSession ≠ Phase.closed := by rw [hlf]; decide
    cases hout : r.session with
    | none => simp [observe, handlesFresh, storedOut, hout] at hobs
    | some h =>
      simp [observe, handlesFresh, storedOut, hout] at hobs
      obtain ⟨hfresh, ha1⟩ := hobs
      subst ha1
      have hne : s.listenSession ≠ h := fun e => hfresh (e ▸ hla)
      simp [Recv.protocolRel, sessionProtocol, observe, hlc, hfr h hfresh, hla, hne,
        Function.update_apply, hlf]
      intro x hx hxh
      simp [hxh, hfr x hx]
  case configureDisconnected s r h1 h2 h3 =>
    simp only [h1] at hrel
    obtain ⟨hla, hlf, hca, hne, hcf⟩ := hrel
    simp [observe, handlesFresh] at hobs
    subst hobs
    simp [observe, sessionProtocol, Recv.protocolRel, hcf, h3, hla, hlf, hne,
      Function.update_apply]
    intro x hx
    have hxc : x ≠ s.connectedSession := fun e => hx (e ▸ hca)
    simp [hxc, hfr x hx]
  case configureDisconnectedZero s r h1 h2 h3 =>
    simp only [h1] at hrel
    obtain ⟨hla, hlf, hca, hne, hcf⟩ := hrel
    simp [observe, handlesFresh] at hobs
    subst hobs
    simp [observe, sessionProtocol, Recv.protocolRel, hcf, hla, hlf, hne, hca,
      Function.update_apply, h3]
    intro x hx
    have hxc : x ≠ s.connectedSession := fun e => hx (e ▸ hca)
    have hxl : x ≠ s.listenSession := fun e => hx (e ▸ hla)
    simp [hxc, hxl, hfr x hx]
  case configureOk s r h1 h2 h3 =>
    simp only [h1] at hrel
    obtain ⟨hla, hlf, hca, hne, hcf⟩ := hrel
    simp [observe, handlesFresh] at hobs
    subst hobs
    simp [observe, sessionProtocol, Recv.protocolRel, hcf, hla, hlf, hne, hca,
      Function.update_apply, h3]
    intro x hx
    have hxc : x ≠ s.connectedSession := fun e => hx (e ▸ hca)
    have hxl : x ≠ s.listenSession := fun e => hx (e ▸ hla)
    simp [hxc, hxl, hfr x hx]
  case configureFail s r h1 h2 h3 =>
    simp only [h1] at hrel
    obtain ⟨hla, hlf, hca, hne, hcf⟩ := hrel
    have hne2 : s.connectedSession ≠ s.listenSession := fun e => hne e.symm
    simp only [Recv.catchHandler] at hobs ⊢
    split_ifs at hobs ⊢ <;>
      simp [observe, handlesFresh] at hobs <;>
      subst hobs <;>
      simp [observe, sessionProtocol, Recv.protocolRel, hcf, hla, hlf, hne, hne2, hca,
        Function.update_apply, h3] <;>
      intro x hx <;>
      have hxc : x ≠ s.connectedSession := (fun e => hx (e ▸ hca)) <;>
      have hxl : x ≠ s.listenSession := (fun e => hx (e ▸ hla)) <;>
      simp [hxc, hxl, hfr x hx]
  case acquireDisconnected s r h1 h2 =>
    simp only [h1] at hrel
    obtain ⟨hla, hlf, hca, hne, hcf⟩ := hrel
    simp [observe, handlesFresh] at hobs
    subst hobs
    simp [observe, sessionProtocol, Recv.protocolRel, hcf, hla, hlf, hne, hca,
      Function.update_apply]
    intro x hx
    have hxc : x ≠ s.connectedSession := fun e => hx (e ▸ hca)
    have hxl : x ≠ s.listenSession := fun e => hx (e ▸ hla)
    simp [hxc, hxl, hfr x hx]
  case acquireOk s r h1 h2 h3 =>
    simp only [h1] at hrel
    obtain ⟨hla, hlf, hca, hne, hcf⟩ := hrel
    simp [observe, handlesFresh] at hobs
    subst hobs
    simp [observe, sessionProtocol, Recv.protocolRel, hcf, hla, hlf, hne, hca,
      Function.update_apply]
    exact hfr
  case acquireFail s r h1 h2 h3 =>
    simp only [h1] at hrel
    obtain ⟨hla, hlf, hca, hne, hcf⟩ := hrel
    have hne2 : s.connectedSession ≠ s.listenSession := fun e => hne e.symm
    simp only [Recv.catchHandler] at hobs ⊢
    split_ifs at hobs ⊢ <;>
      simp [observe, handlesFresh] at hobs <;>
      subst hobs <;>
      simp [observe, sessionProtocol, Recv.protocolRel, hcf, hla, hlf, hne, hne2, hca,
        Function.update_apply] <;>
      intro x hx <;>
      have hxc : x ≠ s.connectedSession := (fun e => hx (e ▸ hca)) <;>
      have hxl : x ≠ s.listenSession := (fun e => hx (e ▸ hla)) <;>
      simp [hxc, hxl, hfr x hx]
  case releaseDisconnected s r h1 h2 =>
    simp only [h1] at hrel
    obtain ⟨hla, hlf, hca, hne, hcf⟩ := hrel
    simp [observe, handlesFresh] at hobs
    subst hobs
    simp [observe, sessionProtocol, Recv.protocolRel, hcf, hla, hlf, hne, hca,
      Function.update_apply]
    intro x hx
    have hxc : x ≠ s.connectedSession := fun e => hx (e ▸ hca)
    have hxl : x ≠ s.listenSession := fun e => hx (e ▸ hla)
    simp [hxc, hxl, hfr x hx]
  case releaseOkReport s r h1 h2 h3 h4 =>
    simp only [h1] at hrel
    obtain ⟨hla, hlf, hca, hne, hcf⟩ := hrel
    simp [observe, handlesFresh] at hobs
    subst hobs
    simp [observe, sessionProtocol, Recv.protocolRel, hcf, hla, hlf, hne, hca,
      Function.update_apply]
    exact hfr
  case releaseOk s r h1 h2 h3 h4 =>
    simp only [h1] at hrel
    obtain ⟨hla, hlf, hca, hne, hcf⟩ := hrel
    simp [observe, handlesFresh] at hobs
    subst hobs
    simp [observe, sessionProtocol, Recv.protocolRel, hcf, hla, hlf, hne, hca,
      Function.update_apply]
    exact hfr
  case releaseFail s r h1 h2 h3 =>
    simp only [h1] at hrel
    obtain ⟨hla, hlf, hca, hne, hcf⟩ := hrel
    have hne2 : s.connectedSession ≠ s.listenSession := fun e => hne e.symm
    simp only [Recv.catchHandler] at hobs ⊢
    split_ifs at hobs ⊢ <;>
      simp [observe, handlesFresh] at hobs <;>
      subst hobs <;>
      simp [observe, sessionProtocol, Recv.protocolRel, hcf, hla, hlf, hne, hne2, hca,
        Function.update_apply] <;>
      intro x hx <;>
      have hxc : x ≠ s.connectedSession := (fun e => hx (e ▸ hca)) <;>
      have hxl : x ≠ s.listenSession := (fun e => hx (e ▸ hla)) <;>
      simp [hxc, hxl, hfr x hx]

theorem recv_protocol (hdr : Header) (argc : Int) (env : List Resp) (issued : List Nat)
    (hlib : observe (handlesFresh hdr) [] (Recv.main hdr argc env).1 = some issued) :
    ∃ φ, observe sessionProtocol (fun _ => Phase.fresh) (Recv.main hdr argc env).1 = some φ := by
  have h := exec_observe_under (Recv.step hdr) (handlesFresh hdr) sessionProtocol []
    (fun _ => Phase.fresh) (Recv.protocolRel hdr) (recv_step_protocol hdr) env
    (Recv.start hdr argc).2 (Recv.start hdr argc).1
    (by
      intro a ha
      by_cases hargc : argc < 3 <;>
        simp [Recv.start, hargc, observe, handlesFresh] at ha ⊢ <;>
        subst ha <;>
        simp [Recv.protocolRel, sessionProtocol])
    issued (by simpa [Recv.main] using hlib)
  obtain ⟨φ, hφ, _⟩ := h
  exact ⟨φ, by simpa [Recv.main] using hφ⟩

/-- C6 (as stated, refuted): three runs of the receiver in which the calls on a
handle do not respect the session state machine.  In the first the library
stores the value 2 for two successive connections: `easyrdma_ConfigureBuffers`
is called twice on handle 2, the second time after `easyrdma_CloseSession` on
it.  In the second `easyrdma_Accept` returns 0 without storing a handle:
`easyrdma_ConfigureBuffers` is called on `easyrdma_InvalidSession`, for which
no accept returned 0.  In the third a failing `easyrdma_Accept` stores the
value of the connection closed before: `easyrdma_CloseSession` is called on
handle 2 twice.  `sessionProtocol` rejects all three traces. -/
theorem recv_state_machine_depends_on_library :
    ((Recv.main hdr0 3 [okSession 0 1, okSession 0 2, ok (-1), okSession 0 2, ok 0]).1 =
        [Event.easyrdma_CreateListenerSession 0 (some 1),
         Event.cout Output.waitingForConnection,
         Event.easyrdma_Accept 1 (-1) 0 (some 2),
         Event.cout Output.accepted,
         Event.easyrdma_ConfigureBuffers 2 2097152 10 (-1),
         Event.cout Output.disconnected,
         Event.cout (Output.received 0),
         Event.easyrdma_CloseSession 2,
         Event.cout Output.waitingForConnection,
         Event.easyrdma_Accept 1 (-1) 0 (some 2),
         Event.cout Output.accepted,
         Event.easyrdma_ConfigureBuffers 2 2097152 10 0] ∧
      (observe sessionProtocol (fun _ => Phase.fresh)
        (Recv.main hdr0 3
          [okSession 0 1, okSession 0 2, ok (-1), okSession 0 2, ok 0]).1).isNone = true) ∧
      ((Recv.main hdr0 3 [okSession 0 1, ok 0, ok 0]).1 =
        [Event.easyrdma_CreateListenerSession 0 (some 1),
         Event.cout Output.waitingForConnection,
         Event.easyrdma_Accept 1 (-1) 0 none,
         Event.cout Output.accepted,
         Event.easyrdma_ConfigureBuffers hdr0.easyrdma_InvalidSession 2097152 10 0] ∧
      (observe sessionProtocol (fun _ => Phase.fresh)
        (Recv.main hdr0 3 [okSession 0 1, ok 0, ok 0]).1).isNone = true) ∧
      ((Recv.main hdr0 3
          [okSession 0 1, okSession 0 2, ok (-1),
            ⟨-5, some 2, easyrdma_InternalBufferRegion.zero, 0⟩]).1 =
        [Event.easyrdma_CreateListenerSession 0 (some 1),
         Event.cout Output.waitingForConnection,
         Event.easyrdma_Accept 1 (-1) 0 (some 2),
         Event.cout Output.accepted,
         Event.easyrdma_ConfigureBuffers 2 2097152 10 (-1),
         Event.cout Output.disconnected,
         Event.cout (Output.received 0),
         Event.easyrdma_CloseSession 2,
         Event.cout Output.waitingForConnection,
         Event.easyrdma_Accept 1 (-1) (-5) (some 2),
         Event.cout (Output.errorAcceptingConnection (-5)),
         Event.easyrdma_CloseSession 1,
         Event.easyrdma_CloseSession 2] ∧
      (observe sessionProtocol (fun _ => Phase.fresh)
        (Recv.main hdr0 3
          [okSession 0 1, okSession 0 2, ok (-1),
            ⟨-5, some 2, easyrdma_InternalBufferRegion.zero, 0⟩]).1).isNone = true) := by
  decide

/-- The three runs above are exactly what `handlesFresh` excludes. -/
theorem handlesFresh_rejects_those_runs :
    observe (handlesFresh hdr0) []
        (Recv.main hdr0 3 [okSession 0 1, okSession 0 2, ok (-1), okSession 0 2, ok 0]).1 =
        none ∧
      observe (handlesFresh hdr0) [] (Recv.main hdr0 3 [okSession 0 1, ok 0, ok 0]).1 = none ∧
      observe (handlesFresh hdr0) []
        (Recv.main hdr0 3
          [okSession 0 1, okSession 0 2, ok (-1),
            ⟨-5, some 2, easyrdma_InternalBufferRegion.zero, 0⟩]).1 = none := by
  decide

/-- C6 (amended): the trace of every run of the sender is accepted by
`sessionProtocol`, and so is the trace of every run of the receiver in which
handle values identify sessions (`handlesFresh` accepts the trace: every
handle value stored by `easyrdma_CreateListenerSession` or `easyrdma_Accept`
was never stored before, every successful call stores one, and a failing call
may also store nothing or `easyrdma_InvalidSession`).  In those runs
`easyrdma_ConfigureBuffers` is called at most once per handle and only on a
handle for which `easyrdma_Connect`, or the `easyrdma_Accept` that returned
it, returned 0; regions are acquired on a handle only after
`easyrdma_ConfigureBuffers` returned 0 on it; and no call is made on a handle
after `easyrdma_CloseSession` on it. -/
theorem session_state_machine_respected (hdr : Header) (argc : Int) (env : List Resp)
    (stored : List Nat) :
    (∃ φ, observe sessionProtocol (fun _ => Phase.fresh) (Send.main hdr argc env).1 = some φ) ∧
      (observe (handlesFresh hdr) [] (Recv.main hdr argc env).1 = some stored →
        ∃ φ, observe sessionProtocol (fun _ => Phase.fresh) (Recv.main hdr argc env).1 =
          some φ) :=
  ⟨send_protocol hdr argc env, recv_protocol hdr argc env stored⟩

theorem session_state_machine_respected_witness :
    observe (handlesFresh hdr0) [] (Recv.main hdr0 3
        [okSession 0 1, okSession 0 2, ok 0, okRegion 0 64 7, ok (-1), okSession 0 3,
          ok (-5)]).1 = some [1, 2, 3] ∧
      ∃ φ, observe sessionProtocol (fun _ => Phase.fresh) (Recv.main hdr0 3
        [okSession 0 1, okSession 0 2, ok 0, okRegion 0 64 7, ok (-1), okSession 0 3,
          ok (-5)]).1 = some φ :=
  ⟨by decide,
    (session_state_machine_respected hdr0 3
      [okSession 0 1, okSession 0 2, ok 0, okRegion 0 64 7, ok (-1), okSession 0 3, ok (-5)]
      [1, 2, 3]).2 (by decide)⟩

/-! ## C7 -/

theorem closedHandles_append (xs ys : List Event) :
    closedHandles (xs ++ ys) = closedHandles xs ++ closedHandles ys := by
  induction xs with
  | nil => rfl
  | cons e es ih => cases e <;> simp [closedHandles, ih]

set_option maxHeartbeats 1000000 in
theorem recv_step_ledger (hdr : Header) :
    ∀ (s : Recv.State) (r : Resp) (a cl a1 : List Nat), Recv.ledgerRel hdr s a cl →
      observe (libraryOK hdr) a (Recv.step hdr s r).1 = some a1 →
      Recv.ledgerRel hdr (Recv.step hdr s r).2 a1 (cl ++ closedHandles (Recv.step hdr s r).1) := by
  apply recv_step_cases hdr (fun s r out =>
    ∀ (a cl a1 : List Nat), Recv.ledgerRel hdr s a cl →
      observe (libraryOK hdr) a out.1 = some a1 →
      Recv.ledgerRel hdr out.2 a1 (cl ++ closedHandles out.1))
  all_goals intros
  all_goals rename_i a cl a1 hrel hobs
  all_goals obtain ⟨hnd, hinv, hrel⟩ := hrel
  case exited s r c h =>
    simp [observe] at hobs
    subst hobs
    simp [Recv.ledgerRel, closedHandles, hnd, hinv, h] at hrel ⊢
    exact hrel
  case createFail s r h1 h2 =>
    simp only [h1] at hrel
    obtain ⟨ha, hcl, hl, hc⟩ := hrel
    subst ha hcl
    cases hout : r.session with
    | some h =>
      by_cases hh : h = hdr.easyrdma_InvalidSession
      · simp [Recv.catchHandler, hout, hh, hc, observe, libraryOK, sessionOut, h2] at hobs ⊢
        subst hobs
        simp [Recv.ledgerRel, closedHandles, Recv.catchHandler, hc]
      · simp [observe, observe_append, libraryOK, sessionOut, hout, h2, hh] at hobs
    | none =>
      simp [Recv.catchHandler, hout, hl, hc, observe, libraryOK, sessionOut, h2] at hobs ⊢
      subst hobs
      simp [Recv.ledgerRel, closedHandles, Recv.catchHandler, hl, hc]
  case createOk s r h1 h2 =>
    simp only [h1] at hrel
    obtain ⟨ha, hcl, hl, hc⟩ := hrel
    subst ha hcl
    cases hout : r.session with
    | none => simp [observe, libraryOK, sessionOut, hout] at hobs
    | some h =>
      simp [observe, libraryOK, sessionOut, hout] at hobs
      obtain ⟨hh, ha1⟩ := hobs
      subst ha1
      simp [Recv.ledgerRel, closedHandles, hc, Ne.symm hh]
  case acceptFail s r h1 h2 =>
    simp only [h1] at hrel
    obtain ⟨ha, hc⟩ := hrel
    have hl : s.listenSession ≠ hdr.easyrdma_InvalidSession := by
      intro h; apply hinv; rw [ha, ← h]; simp
    cases hout : r.session with
    | some h =>
      by_cases hh : h = hdr.easyrdma_InvalidSession
      · simp [Recv.catchHandler, hout, hh, hl, observe, libraryOK, sessionOut, h2] at hobs ⊢
        subst hobs
        simp [Recv.ledgerRel, closedHandles, hnd, hinv]
        rw [ha]
        exact List.perm_append_singleton _ _
      · simp [observe, observe_append, libraryOK, sessionOut, hout, h2, hh] at hobs
    | none =>
      simp [Recv.catchHandler, hout, hl, hc, observe, libraryOK, sessionOut, h2] at hobs ⊢
      subst hobs
      simp [Recv.ledgerRel, closedHandles, hnd, hinv]
      rw [ha]
      exact List.perm_append_singleton _ _
  case acceptOk s r h1 h2 =>
    simp only [h1] at hrel
    obtain ⟨ha, hc⟩ := hrel
    subst ha
    cases hout : r.session with
    | none => simp [observe, libraryOK, sessionOut, hout] at hobs
    | some h =>
      simp [observe, libraryOK, sessionOut, hout] at hobs
      obtain ⟨⟨hh, hfresh⟩, ha1⟩ := hobs
      subst ha1
      simp [Recv.ledgerRel, closedHandles, Ne.symm hh, List.nodup_append] at hnd hinv ⊢
      simp_all [eq_comm]
  case configureDisconnected s r h1 h2 h3 =>
    simp only [h1] at hrel
    subst hrel
    simp [observe, libraryOK] at hobs
    subst hobs
    simp [Recv.ledgerRel, closedHandles] at hnd hinv ⊢
    simp_all
  case configureDisconnectedZero s r h1 h2 h3 =>
    simp only [h1] at hrel
    subst hrel
    simp [observe, libraryOK] at hobs
    subst hobs
    simp [Recv.ledgerRel, closedHandles] at hnd hinv ⊢
    simp_all
  case configureOk s r h1 h2 h3 =>
    simp only [h1] at hrel
    subst hrel
    simp [observe, libraryOK] at hobs
    subst hobs
    simp [Recv.ledgerRel, closedHandles] at hnd hinv ⊢
    simp_all
  case configureFail s r h1 h2 h3 =>
    simp only [h1] at hrel
    subst hrel
    have hl : s.listenSession ≠ hdr.easyrdma_InvalidSession := by
      intro h; apply hinv; rw [← h]; simp
    have hc : s.connectedSession ≠ hdr.easyrdma_InvalidSession := by
      intro h; apply hinv; rw [← h]; simp
    simp [Recv.catchHandler, hl, hc, observe, libraryOK] at hobs ⊢
    subst hobs
    simp [Recv.ledgerRel, closedHandles, hnd, hinv]
  case acquireDisconnected s r h1 h2 =>
    simp only [h1] at hrel
    subst hrel
    simp [observe, libraryOK] at hobs
    subst hobs
    simp [Recv.ledgerRel, closedHandles] at hnd hinv ⊢
    simp_all
  case acquireOk s r h1 h2 h3 =>
    simp only [h1] at hrel
    subst hrel
    simp [observe, libraryOK] at hobs
    subst hobs
    simp [Recv.ledgerRel, closedHandles] at hnd hinv ⊢
    simp_all
  case acquireFail s r h1 h2 h3 =>
    simp only [h1] at hrel
    subst hrel
    have hl : s.listenSession ≠ hdr.easyrdma_InvalidSession := by
      intro h; apply hinv; rw [← h]; simp
    have hc : s.connectedSession ≠ hdr.easyrdma_InvalidSession := by
      intro h; apply hinv; rw [← h]; simp
    simp [Recv.catchHandler, hl, hc, observe, libraryOK] at hobs ⊢
    subst hobs
    simp [Recv.ledgerRel, closedHandles, hnd, hinv]
  case releaseDisconnected s r h1 h2 =>
    simp only [h1] at hrel
    subst hrel
    simp [observe, libraryOK] at hobs
    subst hobs
    simp [Recv.ledgerRel, closedHandles] at hnd hinv ⊢
    simp_all
  case releaseOkReport s r h1 h2 h3 h4 =>
    simp only [h1] at hrel
    subst hrel
    simp [observe, libraryOK] at hobs
    subst hobs
    simp [Recv.ledgerRel, closedHandles] at hnd hinv ⊢
    simp_all
  case releaseOk s r h1 h2 h3 h4 =>
    simp only [h1] at hrel
    subst hrel
    simp [observe, libraryOK] at hobs
    subst hobs
    simp [Recv.ledgerRel, closedHandles] at hnd hinv ⊢
    simp_all
  case releaseFail s r h1 h2 h3 =>
    simp only [h1] at hrel
    subst hrel
    have hl : s.listenSession ≠ hdr.easyrdma_InvalidSession := by
      intro h; apply hinv; rw [← h]; simp
    have hc : s.connectedSession ≠ hdr.easyrdma_InvalidSession := by
      intro h; apply hinv; rw [← h]; simp
    simp [Recv.catchHandler, hl, hc, observe, libraryOK] at hobs ⊢
    subst hobs
    simp [Recv.ledgerRel, closedHandles, hnd, hinv]

/-- C7 (as stated, refuted): two terminating runs of the receiver that meet the
two stated assumptions (every failing call stores nothing, every stored handle
differs from `easyrdma_InvalidSession`).  In the first the library stores the
value 2 for two successive connections, and `easyrdma_CloseSession` is called
twice on handle 2.  In the second `easyrdma_Accept` returns 0 without storing
a handle, and `easyrdma_CloseSession` is called on
`easyrdma_InvalidSession`. -/
theorem recv_close_depends_on_library :
    (Recv.exitCode (Recv.main hdr0 3
        [okSession 0 1, okSession 0 2, ok (-1), okSession 0 2, ok (-1), ok (-5)]).2 =
        some (-1) ∧
      (∀ e ∈ (Recv.main hdr0 3
        [okSession 0 1, okSession 0 2, ok (-1), okSession 0 2, ok (-1), ok (-5)]).1,
        e.leavesOrValid hdr0 = true) ∧
      closedHandles (Recv.main hdr0 3
        [okSession 0 1, okSession 0 2, ok (-1), okSession 0 2, ok (-1), ok (-5)]).1 =
        [2, 2, 1] ∧
      ¬ (closedHandles (Recv.main hdr0 3
        [okSession 0 1, okSession 0 2, ok (-1), okSession 0 2, ok (-1), ok (-5)]).1).Nodup) ∧
      (Recv.exitCode (Recv.main hdr0 3 [okSession 0 1, ok 0, ok (-1), ok (-5)]).2 =
        some (-1) ∧
      (∀ e ∈ (Recv.main hdr0 3 [okSession 0 1, ok 0, ok (-1), ok (-5)]).1,
        e.leavesOrValid hdr0 = true) ∧
      closedHandles (Recv.main hdr0 3 [okSession 0 1, ok 0, ok (-1), ok (-5)]).1 =
        [hdr0.easyrdma_InvalidSession, 1]) := by
  decide

/-- C7 (amended): take a run of the receiver in which `main` has returned and
`libraryOK` accepts the trace: a failing
`easyrdma_CreateListenerSession`/`easyrdma_Accept` leaves the handle as it was
(stores nothing, or `easyrdma_InvalidSession`), and a successful one stores a
handle that differs from `easyrdma_InvalidSession` and from every handle
issued earlier.  Let `issued` be the handles issued in it: the listener
handle, if created, and the connected handle of every successful accept.
Then the handles `easyrdma_CloseSession` was called on are a rearrangement of
`issued`: each issued handle is closed exactly once and nothing else is
closed; in particular no handle is closed twice and `easyrdma_InvalidSession`
is never closed. -/
theorem recv_close_exactly_once (hdr : Header) (argc : Int) (env : List Resp)
    (issued : List Nat) (c : Int)
    (hterm : Recv.exitCode (Recv.main hdr argc env).2 = some c)
    (hlib : observe (libraryOK hdr) [] (Recv.main hdr argc env).1 = some issued) :
    (closedHandles (Recv.main hdr argc env).1).Perm issued ∧
      (closedHandles (Recv.main hdr argc env).1).Nodup ∧
      hdr.easyrdma_InvalidSession ∉ closedHandles (Recv.main hdr argc env).1 ∧
      ∀ h, (closedHandles (Recv.main hdr argc env).1).count h = if h ∈ issued then 1 else 0 := by
  have h := exec_trace_inv (Recv.step hdr)
    (fun s T => ∀ a, observe (libraryOK hdr) [] T = some a →
      Recv.ledgerRel hdr s a (closedHandles T))
    (by
      intro s r T hI a1 ha1
      rw [observe_append] at ha1
      cases ha : observe (libraryOK hdr) [] T with
      | none => simp [ha] at ha1
      | some a =>
        rw [ha] at ha1
        rw [closedHandles_append]
        exact recv_step_ledger hdr s r a _ a1 (hI a ha) (by simpa using ha1))
    env (Recv.start hdr argc).2 (Recv.start hdr argc).1
    (by
      intro a ha
      by_cases hargc : argc < 3 <;>
        simp [Recv.start, hargc, observe, libraryOK] at ha ⊢ <;>
        subst ha <;>
        simp [Recv.ledgerRel, closedHandles])
  have h2 := h issued (by simpa [Recv.main] using hlib)
  obtain ⟨hnd, hinv, hrel⟩ := h2
  have hpc : (Recv.main hdr argc env).2.pc = Recv.Pc.exited c := by
    revert hterm
    unfold Recv.exitCode
    split
    · intro h; simp_all
    · simp
  have hpc2 : (exec (Recv.step hdr) (Recv.start hdr argc).2 env).2.pc = Recv.Pc.exited c := by
    simpa [Recv.main] using hpc
  simp only [hpc2] at hrel
  have hperm : (closedHandles (Recv.main hdr argc env).1).Perm issued := by
    simpa [Recv.main] using hrel
  have hnd2 : (closedHandles (Recv.main hdr argc env).1).Nodup := hperm.nodup_iff.2 hnd
  refine ⟨hperm, hnd2, fun hmem => hinv (hperm.mem_iff.1 hmem), ?_⟩
  intro x
  rw [hperm.count_eq]
  by_cases hx : x ∈ issued
  · simp [hx, List.count_eq_one_of_mem hnd hx]
  · simp [hx, List.count_eq_zero_of_not_mem hx]


theorem recv_close_exactly_once_witness :
    Recv.exitCode (Recv.main hdr0 3
        [okSession 0 1, okSession 0 2, ok 0, okRegion 0 64 7, ok (-1), okSession 0 3,
          ok (-5)]).2 = some (-1) ∧
      observe (libraryOK hdr0) [] (Recv.main hdr0 3
        [okSession 0 1, okSession 0 2, ok 0, okRegion 0 64 7, ok (-1), okSession 0 3,
          ok (-5)]).1 = some [1, 2, 3] ∧
      closedHandles (Recv.main hdr0 3
        [okSession 0 1, okSession 0 2, ok 0, okRegion 0 64 7, ok (-1), okSession 0 3,
          ok (-5)]).1 = [2, 1, 3] ∧
      (closedHandles (Recv.main hdr0 3
        [okSession 0 1, okSession 0 2, ok 0, okRegion 0 64 7, ok (-1), okSession 0 3,
          ok (-5)]).1).Perm [1, 2, 3] :=
  ⟨by decide, by decide, by decide,
    (recv_close_exactly_once hdr0 3
      [okSession 0 1, okSession 0 2, ok 0, okRegion 0 64 7, ok (-1), okSession 0 3, ok (-5)]
      [1, 2, 3] (-1) (by decide) (by decide)).1⟩

/-! ## C8 -/

theorem send_step_scenario (s : Send.State) (r : Resp)
    (h1 : s.pc = Send.Pc.QueueBufferRegion → scenarioPayload s.bufferRegion) :
    ((Send.step s r).2.pc = Send.Pc.QueueBufferRegion →
        scenarioPayload (Send.step s r).2.bufferRegion) ∧
      ∀ e ∈ (Send.step s r).1, Send.scenarioEvent e := by
  have hb : Send.blockSizeBytes = 1048576 := rfl
  cases hpc : s.pc with
  | exited c => simp [Send.step, hpc]
  | CreateConnectorSession =>
    by_cases hr : r.status = 0 <;> simp [Send.step, hpc, hr, Send.scenarioEvent]
  | Connect =>
    by_cases hr : r.status = 0 <;>
      simp [Send.step, hpc, hr, Send.scenarioEvent, Send.timeoutMs]
  | ConfigureBuffers =>
    by_cases hr : r.status = 0 <;>
      simp [Send.step, hpc, hr, Send.scenarioEvent, Send.loopHead, hb, Send.numBuffers]
  | AcquireSendRegion =>
    by_cases hr : r.status = 0
    · by_cases hs : r.region.bufferSize < 1048576
      · simp [Send.step, hpc, hr, hs, Send.scenarioEvent, send_sendData_length]
      · simp [Send.step, hpc, hr, hs, Send.scenarioEvent, send_sendData_length,
          scenarioPayload]
        intro i hi
        exact memcpy_sendData_getElem _ i hi
    · simp [Send.step, hpc, hr, Send.scenarioEvent]
  | QueueBufferRegion =>
    have hq := h1 hpc
    by_cases hr : r.status = 0 <;>
      simp [Send.step, hpc, hr, Send.scenarioEvent, Send.loopHead, hq]

/-- A state invariant and a property of single events, both kept by every
step, hold along every run. -/
theorem exec_events {σ : Type} (step : σ → Resp → List Event × σ) (I : σ → Prop)
    (P : Event → Prop)
    (hstep : ∀ s r, I s → I (step s r).2 ∧ ∀ e ∈ (step s r).1, P e) :
    ∀ (env : List Resp) (s : σ), I s →
      I (exec step s env).2 ∧ ∀ e ∈ (exec step s env).1, P e := by
  intro env
  induction env with
  | nil => intro s h; simpa [exec] using h
  | cons r rs ih =>
    intro s h
    obtain ⟨h1, h2⟩ := hstep s r h
    obtain ⟨h3, h4⟩ := ih (step s r).2 h1
    refine ⟨by simpa [exec] using h3, ?_⟩
    intro e he
    simp only [exec, List.mem_append] at he
    rcases he with he | he
    · exact h2 e he
    · exact h4 e he

theorem send_scenario_events (hdr : Header) (argc : Int) (env : List Resp) :
    ∀ e ∈ (Send.main hdr argc env).1, Send.scenarioEvent e := by
  have h := exec_events Send.step
    (fun s => s.pc = Send.Pc.QueueBufferRegion → scenarioPayload s.bufferRegion)
    Send.scenarioEvent send_step_scenario env (Send.start hdr argc).2
    (by by_cases ha : argc < 4 <;> simp [Send.start, ha])
  intro e he
  simp only [Send.main, List.mem_append] at he
  rcases he with he | he
  · revert he
    by_cases ha : argc < 4 <;> simp [Send.start, ha]
    intro he; subst he; simp [Send.scenarioEvent]
  · exact h.2 e he

theorem recv_step_scenario (hdr : Header) (s : Recv.State) (r : Resp) :
    ∀ e ∈ (Recv.step hdr s r).1, Recv.scenarioEvent e := by
  have hb : Recv.blockSizeBytes = 2097152 := rfl
  cases hpc : s.pc <;>
    simp only [Recv.step, hpc, Recv.receiveLoopHead, Recv.afterReceiveLoop,
      Recv.acceptLoopHead, Recv.catchHandler] <;>
    (try split_ifs) <;>
    simp [Recv.scenarioEvent, hb, Recv.numBuffers]

theorem recv_scenario_events (hdr : Header) (argc : Int) (env : List Resp) :
    ∀ e ∈ (Recv.main hdr argc env).1, Recv.scenarioEvent e := by
  have h := exec_events (Recv.step hdr) (fun _ => True) Recv.scenarioEvent
    (fun s r _ => ⟨trivial, recv_step_scenario hdr s r⟩) env (Recv.start hdr argc).2 trivial
  intro e he
  simp only [Recv.main, List.mem_append] at he
  rcases he with he | he
  · revert he
    by_cases ha : argc < 3 <;> simp [Recv.start, ha]
    intro he; subst he; simp [Recv.scenarioEvent]
  · exact h.2 e he

/-- C8: in every run of the sender each `easyrdma_Connect` has
`timeoutMs = 5000`, each `easyrdma_ConfigureBuffers` has
`blockSizeBytes = 1048576` and `numBuffers = 50`, and each region passed to
`easyrdma_QueueBufferRegion` has `usedSize = 1048576` and `0xAA` in each of
its first 1048576 bytes; in every run of the receiver each
`easyrdma_ConfigureBuffers` has `blockSizeBytes = 2097152` and
`numBuffers = 10`.  The calls are really made once the preceding calls have
succeeded, and both block sizes are the exact products (below `2^31`, so
neither the `int` product nor its conversion to `uint32_t` wraps). -/
theorem scenario_parameters (hdr : Header) (argc : Int) (env : List Resp) (c n k : Resp)
    (rest : List Resp) :
    (∀ e ∈ (Send.main hdr argc env).1, Send.scenarioEvent e) ∧
      (∀ e ∈ (Recv.main hdr argc env).1, Recv.scenarioEvent e) ∧
      (¬ argc < 4 → c.status = 0 → n.status = 0 →
        ∃ tl, (Send.main hdr argc (c :: n :: k :: rest)).1 =
          Event.easyrdma_CreateConnectorSession 0 c.session ::
          Event.easyrdma_Connect (c.session.getD hdr.easyrdma_InvalidSession) 5000 0 ::
          Event.easyrdma_ConfigureBuffers (c.session.getD hdr.easyrdma_InvalidSession)
            1048576 50 k.status :: tl) ∧
      (¬ argc < 3 → c.status = 0 → n.status = 0 →
        ∃ tl, (Recv.main hdr argc (c :: n :: k :: rest)).1 =
          Event.easyrdma_CreateListenerSession 0 c.session ::
          Event.cout Output.waitingForConnection ::
          Event.easyrdma_Accept (c.session.getD hdr.easyrdma_InvalidSession) (-1) 0 n.session ::
          Event.cout Output.accepted ::
          Event.easyrdma_ConfigureBuffers
            (n.session.getD hdr.easyrdma_InvalidSession) 2097152 10 k.status :: tl) ∧
      Send.blockSizeBytes = 1024 * 1024 ∧ 1024 * 1024 < 2 ^ 31 ∧
      Recv.blockSizeBytes = 2 * 1024 * 1024 ∧ 2 * 1024 * 1024 < 2 ^ 31 := by
  have hb : Send.blockSizeBytes = 1048576 := rfl
  have hb2 : Recv.blockSizeBytes = 2097152 := rfl
  refine ⟨send_scenario_events hdr argc env, recv_scenario_events hdr argc env, ?_, ?_,
    rfl, by norm_num, rfl, by norm_num⟩
  · intro ha hc hn
    by_cases hk : k.status = 0 <;>
      simp [Send.main, Send.start, exec, Send.step, ha, hc, hn, hk, Send.loopHead,
        Send.timeoutMs, hb, Send.numBuffers]
  · intro ha hc hn
    by_cases hd : k.status = hdr.easyrdma_Error_Disconnected
    · simp [Recv.main, Recv.start, exec, Recv.step, ha, hc, hn, hd, Recv.acceptLoopHead,
        Recv.timeoutMs, hb2, Recv.numBuffers]
    · by_cases hk : k.status = 0
      · have hd2 : ¬ (0 : Int) = hdr.easyrdma_Error_Disconnected := by
          rw [← hk]; exact hd
        simp [Recv.main, Recv.start, exec, Recv.step, ha, hc, hn, hd2, hk,
          Recv.acceptLoopHead, Recv.timeoutMs, hb2, Recv.numBuffers]
      · simp [Recv.main, Recv.start, exec, Recv.step, ha, hc, hn, hd, hk,
          Recv.acceptLoopHead, Recv.timeoutMs, hb2, Recv.numBuffers]

theorem send_run_queue_event :
    Event.easyrdma_QueueBufferRegion 1
        ⟨4096, 1048576, 1048576, memcpy [] Send.sendData.data 1048576⟩ 0 ∈
      (Send.main hdr0 4 [okSession 0 1, ok 0, ok 0, okRegion 0 1048576 0, ok 0]).1 := by
  simp [Send.main, Send.start, exec, Send.step, okSession, ok, okRegion, Send.loopHead,
    send_sendData_length]

theorem scenario_parameters_witness :
    Event.easyrdma_QueueBufferRegion 1
        ⟨4096, 1048576, 1048576, memcpy [] Send.sendData.data 1048576⟩ 0 ∈
      (Send.main hdr0 4 [okSession 0 1, ok 0, ok 0, okRegion 0 1048576 0, ok 0]).1 ∧
      scenarioPayload ⟨4096, 1048576, 1048576, memcpy [] Send.sendData.data 1048576⟩ :=
  ⟨send_run_queue_event,
    (scenario_parameters hdr0 4 [okSession 0 1, ok 0, ok 0, okRegion 0 1048576 0, ok 0]
      (ok 0) (ok 0) (ok 0) []).1 _ send_run_queue_event⟩

/-! ## C9 -/

set_option maxHeartbeats 1000000 in
theorem recv_step_total (hdr : Header) (hdisc : hdr.easyrdma_Error_Disconnected ≠ 0) :
    ∀ (s : Recv.State) (r : Resp) (q : List (Nat × Nat) × Bool), Recv.totalRel s q →
      ∃ q1, observe receivedTotal q (Recv.step hdr s r).1 = some q1 ∧
        Recv.totalRel (Recv.step hdr s r).2 q1 := by
  apply recv_step_cases hdr (fun s r out =>
    ∀ q : List (Nat × Nat) × Bool, Recv.totalRel s q →
      ∃ q1, observe receivedTotal q out.1 = some q1 ∧ Recv.totalRel out.2 q1)
  all_goals intros
  all_goals rename_i q hq
  all_goals obtain ⟨acc, p⟩ := q
  all_goals obtain ⟨hp, hcfg, hloop⟩ := hq
  all_goals simp only at hp hcfg hloop
  all_goals subst hp
  case exited s r c h => simp [observe, Recv.totalRel, h]
  case createFail s r h1 h2 =>
    simp only [Recv.catchHandler]
    split_ifs <;> simp [observe, receivedTotal, Recv.totalRel]
  case createOk s r h1 h2 => simp [observe, receivedTotal, Recv.totalRel]
  case acceptFail s r h1 h2 =>
    simp only [Recv.catchHandler]
    split_ifs <;> simp [observe, receivedTotal, Recv.totalRel, h2]
  case acceptOk s r h1 h2 => simp [observe, receivedTotal, Recv.totalRel]
  case configureDisconnected s r h1 h2 h3 =>
    simp [observe, receivedTotal, Recv.totalRel, hcfg h1]
  case configureDisconnectedZero s r h1 h2 h3 =>
    exact absurd (h2.symm.trans h3) hdisc
  case configureFail s r h1 h2 h3 =>
    simp only [Recv.catchHandler]
    split_ifs <;> simp [observe, receivedTotal, Recv.totalRel]
  case configureOk s r h1 h2 h3 =>
    simp [observe, receivedTotal, Recv.totalRel, hcfg h1]
  case acquireDisconnected s r h1 h2 =>
    have hne : r.status ≠ 0 := by rw [h2]; exact hdisc
    obtain ⟨ht, hs⟩ := hloop (Or.inl h1)
    simp [observe, receivedTotal, Recv.totalRel, hne, ht]
    simpa using hs
  case acquireFail s r h1 h2 h3 =>
    simp only [Recv.catchHandler]
    split_ifs <;> simp [observe, receivedTotal, Recv.totalRel, h3]
  case acquireOk s r h1 h2 h3 =>
    obtain ⟨ht, hs⟩ := hloop (Or.inl h1)
    simp [observe, receivedTotal, Recv.totalRel, ht, u64]
    intro a b hab
    rcases hab with hab | hab
    · exact hs (a, b) hab
    · exact hab.1
  case releaseDisconnected s r h1 h2 =>
    obtain ⟨ht, hs⟩ := hloop (Or.inr h1)
    simp [observe, receivedTotal, Recv.totalRel, ht]
    simpa using hs
  case releaseFail s r h1 h2 h3 =>
    simp only [Recv.catchHandler]
    split_ifs <;> simp [observe, receivedTotal, Recv.totalRel]
  case releaseOkReport s r h1 h2 h3 h4 =>
    obtain ⟨ht, hs⟩ := hloop (Or.inr h1)
    simp [observe, receivedTotal, Recv.totalRel, ht]
    simpa using hs
  case releaseOk s r h1 h2 h3 h4 =>
    obtain ⟨ht, hs⟩ := hloop (Or.inr h1)
    simp [observe, receivedTotal, Recv.totalRel, ht]
    simpa using hs

/-- C9: provided `easyrdma_Error_Disconnected` is not 0, the trace of every run
of the receiver is accepted by `receivedTotal`: each printed
"Received ... bytes" total is the sum modulo `2^64` of the `usedSize` of the
regions returned by the successful `easyrdma_AcquireReceivedRegion` calls since
the last successful `easyrdma_Accept` (the counter restarts there), whatever
their release returned, and all of them were acquired on the session that is
closed right after the line. -/
theorem recv_total_is_sum_of_used_sizes (hdr : Header) (argc : Int) (env : List Resp)
    (hdisc : hdr.easyrdma_Error_Disconnected ≠ 0) :
    ∃ q, observe receivedTotal ([], false) (Recv.main hdr argc env).1 = some q := by
  have h := exec_observe (Recv.step hdr) receivedTotal ([], false) Recv.totalRel
    (recv_step_total hdr hdisc) env (Recv.start hdr argc).2 (Recv.start hdr argc).1
    (by
      by_cases ha : argc < 3 <;>
        simp [Recv.start, ha, observe, receivedTotal, Recv.totalRel])
  obtain ⟨q, hq, _⟩ := h
  exact ⟨q, by simpa [Recv.main] using hq⟩

theorem recv_total_is_sum_of_used_sizes_witness :
    hdr0.easyrdma_Error_Disconnected ≠ 0 ∧
      Event.cout (Output.received 16) ∈
        (Recv.main hdr0 3
          [okSession 0 1, okSession 0 2, ok 0, okRegion 0 64 7, ok 0, okRegion 0 64 9,
            ok (-1), okSession 0 3, ok (-1)]).1 ∧
      Event.cout (Output.received 0) ∈
        (Recv.main hdr0 3
          [okSession 0 1, okSession 0 2, ok 0, okRegion 0 64 7, ok 0, okRegion 0 64 9,
            ok (-1), okSession 0 3, ok (-1)]).1 ∧
      ∃ q, observe receivedTotal ([], false)
        (Recv.main hdr0 3
          [okSession 0 1, okSession 0 2, ok 0, okRegion 0 64 7, ok 0, okRegion 0 64 9,
            ok (-1), okSession 0 3, ok (-1)]).1 = some q :=
  ⟨by decide, by decide, by decide,
    recv_total_is_sum_of_used_sizes hdr0 3
      [okSession 0 1, okSession 0 2, ok 0, okRegion 0 64 7, ok 0, okRegion 0 64 9,
        ok (-1), okSession 0 3, ok (-1)] (by decide)⟩

/-! ## C10 -/

theorem send_run_small_region :
    Send.main hdr0 4 [okSession 0 1, ok 0, ok 0, okRegion 0 16 0] =
      ([Event.easyrdma_CreateConnectorSession 0 (some 1),
        Event.easyrdma_Connect 1 5000 0,
        Event.easyrdma_ConfigureBuffers 1 1048576 50 0,
        Event.easyrdma_AcquireSendRegion 1 5000 0 ⟨4096, 16, 0, []⟩,
        Event.cout (Output.sendBufferTooSmall 16 1048576),
        Event.easyrdma_CloseSession 1],
       ⟨Send.Pc.exited (-1), 1, 0, ⟨4096, 16, 0, []⟩⟩) := by
  simp [Send.main, Send.start, exec, Send.step, okSession, ok, okRegion, Send.loopHead,
    send_sendData_length]
  decide

/-- C10 (as stated, refuted): a sender run in which `argc` is 4 and every
library call returns status 0 still returns -1, because the acquired region is
smaller than the payload; so -1 is not always a usage error or a non-zero
status. -/
theorem send_minus_one_without_failing_status :
    Send.exitCode (Send.main hdr0 4 [okSession 0 1, ok 0, ok 0, okRegion 0 16 0]).2 = some (-1) ∧
      ¬ ((4 : Int) < 4) ∧
      ∀ e ∈ (Send.main hdr0 4 [okSession 0 1, ok 0, ok 0, okRegion 0 16 0]).1,
        ∀ st, e.status? = some st → st = 0 := by
  rw [send_run_small_region]
  simp [Send.exitCode, Event.status?]

theorem send_exit_inv (hdr : Header) (argc : Int) (env : List Resp) :
    (∀ c, (Send.main hdr argc env).2.pc = Send.Pc.exited c →
        c = -1 ∧
        (argc < 4 ∨
          (∃ e ∈ (Send.main hdr argc env).1, ∃ st, e.status? = some st ∧ st ≠ 0) ∨
          ∃ h t r, Event.easyrdma_AcquireSendRegion h t 0 r ∈ (Send.main hdr argc env).1 ∧
            r.bufferSize < 1048576)) ∧
      (∀ ms, Event.sleep_for ms ∉ (Send.main hdr argc env).1) := by
  have h := exec_trace_inv Send.step
    (fun s T => (∀ c, s.pc = Send.Pc.exited c →
        c = -1 ∧
        (argc < 4 ∨ (∃ e ∈ T, ∃ st, e.status? = some st ∧ st ≠ 0) ∨
          ∃ h t r, Event.easyrdma_AcquireSendRegion h t 0 r ∈ T ∧ r.bufferSize < 1048576)) ∧
      (∀ ms, Event.sleep_for ms ∉ T))
    (by
      intro s r T hI
      obtain ⟨h1, h2⟩ := hI
      cases hpc : s.pc with
      | exited c =>
        have := h1 c hpc
        simpa [Send.step, hpc] using ⟨this, h2⟩
      | CreateConnectorSession =>
        by_cases hr : r.status = 0 <;>
          simp [Send.step, hpc, hr, h2, Event.status?, or_and_right, exists_or]
      | Connect =>
        by_cases hr : r.status = 0 <;>
          simp [Send.step, hpc, hr, h2, Event.status?, or_and_right, exists_or]
      | ConfigureBuffers =>
        by_cases hr : r.status = 0 <;>
          simp [Send.step, hpc, hr, h2, Event.status?, Send.loopHead, or_and_right, exists_or]
      | AcquireSendRegion =>
        by_cases hr : r.status = 0
        · by_cases hb : r.region.bufferSize < 1048576
          · simp only [Send.step, hpc, hr, send_sendData_length, hb]
            simp [h2]
            right; right
            exact ⟨s.session, Send.timeoutMs, r.region, Or.inr ⟨rfl, rfl, rfl⟩, hb⟩
          · simp [Send.step, hpc, hr, h2, Event.status?, send_sendData_length, hb]
        · simp [Send.step, hpc, hr, h2, Event.status?, or_and_right, exists_or]
      | QueueBufferRegion =>
        by_cases hr : r.status = 0 <;>
          simp [Send.step, hpc, hr, h2, Event.status?, Send.loopHead, or_and_right, exists_or])
    env (Send.start hdr argc).2 (Send.start hdr argc).1
    (by
      by_cases ha : argc < 4 <;> simp [Send.start, ha])
  simpa [Send.main] using h

theorem recv_exit_inv (hdr : Header) (argc : Int) (env : List Resp) :
    ∀ c, (Recv.main hdr argc env).2.pc = Recv.Pc.exited c →
      c = -1 ∧
      (argc < 3 ∨ ∃ e ∈ (Recv.main hdr argc env).1, ∃ st, e.status? = some st ∧ st ≠ 0) := by
  have h := exec_trace_inv (Recv.step hdr)
    (fun s T => ∀ c, s.pc = Recv.Pc.exited c →
      c = -1 ∧ (argc < 3 ∨ ∃ e ∈ T, ∃ st, e.status? = some st ∧ st ≠ 0))
    (by
      intro s r T h1
      cases hpc : s.pc with
      | exited c =>
        have := h1 c hpc
        simpa [Recv.step, hpc] using this
      | CreateListenerSession =>
        by_cases hr : r.status = 0 <;>
          simp [Recv.step, hpc, hr, Event.status?, or_and_right, exists_or,
            Recv.acceptLoopHead, Recv.catchHandler]
      | Accept =>
        by_cases hr : r.status = 0 <;>
          simp [Recv.step, hpc, hr, Event.status?, or_and_right, exists_or,
            Recv.catchHandler]
      | ConfigureBuffers =>
        by_cases hd : r.status = hdr.easyrdma_Error_Disconnected
        · by_cases hr : hdr.easyrdma_Error_Disconnected = 0 <;>
            simp [Recv.step, hpc, hd, hr, Recv.receiveLoopHead, Recv.afterReceiveLoop,
              Recv.acceptLoopHead]
        · by_cases hr : r.status = 0 <;>
            simp_all [Recv.step, Event.status?, or_and_right, exists_or,
              Recv.receiveLoopHead, Recv.catchHandler]
      | AcquireReceivedRegion =>
        by_cases hd : r.status = hdr.easyrdma_Error_Disconnected
        · simp [Recv.step, hpc, hd, Recv.afterReceiveLoop, Recv.acceptLoopHead]
        · by_cases hr : r.status = 0 <;>
            simp_all [Recv.step, Event.status?, or_and_right, exists_or,
              Recv.catchHandler]
      | ReleaseReceivedBufferRegion =>
        by_cases hd : r.status = hdr.easyrdma_Error_Disconnected
        · simp [Recv.step, hpc, hd, Recv.afterReceiveLoop, Recv.acceptLoopHead]
        · by_cases hr : r.status = 0
          · have hd2 : ¬ (0 : Int) = hdr.easyrdma_Error_Disconnected := by
              rw [← hr]; exact hd
            by_cases ht : r.durationMs ≥ 1000 <;>
              simp [Recv.step, hpc, hr, hd2, ht, Recv.receiveLoopHead]
          · simp_all [Recv.step, Event.status?, or_and_right, exists_or,
              Recv.catchHandler])
    env (Recv.start hdr argc).2 (Recv.start hdr argc).1
    (by
      by_cases ha : argc < 3 <;> simp [Recv.start, ha])
  simpa [Recv.main] using h

/-- C10 (amended): whenever either `main` has returned, it has returned -1, and
the return is accounted for by a usage error, by a library call that returned
a non-zero status, or (sender only) by a successfully acquired send region
smaller than 1048576 bytes.  The code behind the loops never runs: no run of
the sender reaches `sleep_for`, and neither program returns 0. -/
theorem mains_return_only_minus_one (hdr : Header) (argc : Int) (env : List Resp) (c : Int) :
    (Send.exitCode (Send.main hdr argc env).2 = some c →
        c = -1 ∧
        (argc < 4 ∨
          (∃ e ∈ (Send.main hdr argc env).1, ∃ st, e.status? = some st ∧ st ≠ 0) ∨
          ∃ h t r, Event.easyrdma_AcquireSendRegion h t 0 r ∈ (Send.main hdr argc env).1 ∧
            r.bufferSize < 1048576)) ∧
      (∀ ms, Event.sleep_for ms ∉ (Send.main hdr argc env).1) ∧
      (Recv.exitCode (Recv.main hdr argc env).2 = some c →
        c = -1 ∧
        (argc < 3 ∨
          ∃ e ∈ (Recv.main hdr argc env).1, ∃ st, e.status? = some st ∧ st ≠ 0)) := by
  refine ⟨?_, (send_exit_inv hdr argc env).2, ?_⟩
  · intro h
    apply (send_exit_inv hdr argc env).1 c
    revert h
    unfold Send.exitCode
    split
    · intro h
      simp_all
    · simp
  · intro h
    apply recv_exit_inv hdr argc env c
    revert h
    unfold Recv.exitCode
    split
    · intro h
      simp_all
    · simp

theorem mains_return_only_minus_one_witness :
    Send.exitCode (Send.main hdr0 4 [okSession 0 1, ok 0, ok 0, okRegion 0 16 0]).2 = some (-1) ∧
      Recv.exitCode (Recv.main hdr0 3 [okSession 0 1, ok (-2)]).2 = some (-1) ∧
      ((-1 : Int) = -1 ∧
        ((3 : Int) < 3 ∨
          ∃ e ∈ (Recv.main hdr0 3 [okSession 0 1, ok (-2)]).1,
            ∃ st, e.status? = some st ∧ st ≠ 0)) :=
  ⟨by rw [send_run_small_region]; rfl, by decide,
    (mains_return_only_minus_one hdr0 3 [okSession 0 1, ok (-2)] (-1)).2.2 (by decide)⟩

end EasyRdma
